import Mathlib

/-!
Shallow embedding of the `linkedin-mcp-runner` stdio MCP adapter
(`src/unnamed/part_002`, final revision: the pure-Node JSON-RPC server
started by `startMcpServer` / `main`).

JavaScript values decoded from JSON are modelled by `Json`; the JS
`undefined` that property access can produce is modelled by `Option Json`
(`none` = undefined).  Network effects (`axios.post`) are modelled by a
`BackendOutcome` parameter: the adapter performs at most one backend call
per request, and every handler is a pure function of the request, the
environment (the `LINKEDIN_MCP_API_KEY` variable) and that outcome.
-/

namespace LinkedinMcpRunner

/-- A JSON value as produced by `JSON.parse` (numbers restricted to
integers, which covers every value the adapter's validation inspects). -/
inductive Json where
  | null
  | bool (b : Bool)
  | num (n : Int)
  | str (s : String)
  | arr (elems : List Json)
  | obj (fields : List (String × Json))

/-- JS truthiness of a possibly-undefined value: `undefined`, `null`,
`false`, `0` and `""` are falsy; arrays and objects are always truthy. -/
def truthy : Option Json → Bool
  | none => false
  | some Json.null => false
  | some (Json.bool b) => b
  | some (Json.num n) => n != 0
  | some (Json.str s) => s != ""
  | some (Json.arr _) => true
  | some (Json.obj _) => true

/-- `typeof v === 'string'`. -/
def isStringV : Option Json → Bool
  | some (Json.str _) => true
  | _ => false

/-- `typeof v === 'number'`. -/
def isNumberV : Option Json → Bool
  | some (Json.num _) => true
  | _ => false

/-- `typeof v === 'object'` — in JS this is true for `null`, arrays and
plain objects alike. -/
def isObjectTypeV : Option Json → Bool
  | some Json.null => true
  | some (Json.arr _) => true
  | some (Json.obj _) => true
  | _ => false

/-- `Array.isArray v`. -/
def isArrayV : Option Json → Bool
  | some (Json.arr _) => true
  | _ => false

/-- Property lookup on an association list, first match (parsed JSON has
no duplicate keys: `JSON.parse` keeps one binding per key). -/
def lookupField : List (String × Json) → String → Option Json
  | [], _ => none
  | (k, v) :: fs, key => if k = key then some v else lookupField fs key

/-- `v?.k` / `v.k`: property access, `undefined` (i.e. `none`) when the
receiver is undefined, a primitive, an array, or lacks the key. -/
def getProp (v : Option Json) (key : String) : Option Json :=
  match v with
  | some (Json.obj fields) => lookupField fields key
  | _ => none

/-- `a || b`: the first operand when truthy, otherwise the second. -/
def jsOr (a : Option Json) (b : Json) : Json :=
  match a with
  | some v => if truthy (some v) then v else b
  | none => b

/-- `v === "lit"`: JS strict equality of a possibly-undefined value with a
string literal — true exactly when the value is a string of that content. -/
def strictEqStr (v : Option Json) (lit : String) : Bool :=
  match v with
  | some (Json.str s) => s == lit
  | _ => false

/-- `v === null`: JS strict equality with `null`. -/
def isNullJson : Json → Bool
  | Json.null => true
  | _ => false

mutual

/-- JS `ToString` of a value (as used by template-literal interpolation):
`String(v)`.  Arrays join their elements with `,`, `null` elements
becoming empty, objects print as `[object Object]`. -/
def jsToString : Json → String
  | Json.null => "null"
  | Json.bool true => "true"
  | Json.bool false => "false"
  | Json.num n => toString n
  | Json.str s => s
  | Json.arr elems => jsArrayToString elems
  | Json.obj _ => "[object Object]"

/-- JS `Array.prototype.toString`: elements joined with `,`, with `null`
elements rendered as the empty string. -/
def jsArrayToString : List Json → String
  | [] => ""
  | [Json.null] => ""
  | [x] => jsToString x
  | Json.null :: xs => "," ++ jsArrayToString xs
  | x :: xs => jsToString x ++ "," ++ jsArrayToString xs

end

/-- Interpolation of a possibly-undefined value: `undefined` prints as
the string `undefined`. -/
def jsToStringV : Option Json → String
  | some v => jsToString v
  | none => "undefined"

/-- The `error` object of a JSON-RPC error envelope. -/
structure ErrorObj where
  code : Int
  message : String

/-- The payload of a response: `result` or `error` (`sendResponse` always
adds `jsonrpc: "2.0"`, which therefore carries no information here). -/
inductive RespBody where
  | result (r : Json)
  | error (e : ErrorObj)

/-- One line written by `sendResponse` (after `JSON.stringify`): the `id`
field is `none` when the handler's `id` was `undefined`, in which case
`JSON.stringify` omits the key from the emitted line. -/
structure Response where
  id : Option Json
  body : RespBody

/-- `sendResponse` call for an error envelope. -/
def errResp (idv : Option Json) (code : Int) (message : String) : Response :=
  { id := idv, body := RespBody.error { code := code, message := message } }

/-- A `{type: "text", text: ...}` content item (the `text` value is the
raw JS value placed there, which for `analyze_linkedin_chat` is the
backend's `reply` field verbatim). -/
def textItem (t : Json) : Json :=
  Json.obj [("type", Json.str "text"), ("text", t)]

/-- A `{content: [...], isError: ...}` tool result envelope. -/
def toolResult (content : List Json) (isErr : Bool) : Json :=
  Json.obj [("content", Json.arr content), ("isError", Json.bool isErr)]

/-- The outcome of the (at most one) `axios.post` a handler performs:
a 2xx response with its parsed body (`ok`, the axios `data`, `none` when
the body is empty/undefined), a non-2xx HTTP response (`httpErr`, axios
throws with `error.response` set), no response at all — network failure
or timeout — (`noResponse`, axios throws with `error.request` set), or a
failure before the request existed (`setupErr`, axios throws with
neither, `msg` being `error.message`). -/
inductive BackendOutcome where
  | ok (data : Option Json)
  | httpErr (status : Nat) (data : Option Json)
  | noResponse
  | setupErr (msg : String)

/-- The process environment as the handlers read it:
`process.env.LINKEDIN_MCP_API_KEY` (a string when set, else undefined). -/
structure Env where
  apiKey : Option String

/-- `!apiKey` is falsy: the key is set and non-empty. -/
def apiKeyOk : Option String → Bool
  | none => false
  | some s => s != ""

/-- What one `handleRequest` invocation does: the responses it writes and
whether it issued its backend HTTP request. -/
structure HandleResult where
  responses : List Response
  backendCalled : Bool

/-- Exactly one-digit check for the scheduled-date pattern. -/
def isAsciiDigit (c : Char) : Bool :=
  '0' ≤ c && c ≤ '9'

/-- Consume exactly `n` ASCII digits (`\d{n}`). -/
def takeDigits : Nat → List Char → Option (List Char)
  | 0, cs => some cs
  | _ + 1, [] => none
  | n + 1, c :: cs => if isAsciiDigit c then takeDigits n cs else none

/-- Consume one expected literal character. -/
def takeChar (ch : Char) : List Char → Option (List Char)
  | [] => none
  | c :: cs => if c = ch then some cs else none

/-- The anchored tail `(?:Z|[+-]\d{2}:\d{2})$` of the scheduled-date
regular expression. -/
def matchOffsetEnd : List Char → Bool
  | ['Z'] => true
  | c :: cs =>
      (c = '+' || c = '-') &&
      (match takeDigits 2 cs with
       | none => false
       | some cs1 =>
         match takeChar ':' cs1 with
         | none => false
         | some cs2 =>
           match takeDigits 2 cs2 with
           | some [] => true
           | _ => false)
  | [] => false

/-- After the first fractional digit: consume further digits greedily
(`\d+` — digits and the offset's first characters are disjoint, so the
greedy match is exact), then the offset. -/
def matchFracRest : List Char → Bool
  | [] => false
  | c :: cs => if isAsciiDigit c then matchFracRest cs else matchOffsetEnd (c :: cs)

/-- The optional fraction and the offset: `(?:\.\d+)?(?:Z|[+-]\d{2}:\d{2})$`. -/
def matchFracAndOffset : List Char → Bool
  | '.' :: cs =>
      (match cs with
       | c :: rest => if isAsciiDigit c then matchFracRest rest else false
       | [] => false)
  | cs => matchOffsetEnd cs

/-- The `schedule_linkedin_post` date check, the embedding of
`/^\d{4}-\d{2}-\d{2}T\d{2}:\d{2}:\d{2}(?:\.\d+)?(?:Z|[+-]\d{2}:\d{2})$/.test(s)`. -/
def scheduledDateTest (s : String) : Bool :=
  match takeDigits 4 s.toList with
  | none => false
  | some cs1 =>
    match takeChar '-' cs1 with
    | none => false
    | some cs2 =>
      match takeDigits 2 cs2 with
      | none => false
      | some cs3 =>
        match takeChar '-' cs3 with
        | none => false
        | some cs4 =>
          match takeDigits 2 cs4 with
          | none => false
          | some cs5 =>
            match takeChar 'T' cs5 with
            | none => false
            | some cs6 =>
              match takeDigits 2 cs6 with
              | none => false
              | some cs7 =>
                match takeChar ':' cs7 with
                | none => false
                | some cs8 =>
                  match takeDigits 2 cs8 with
                  | none => false
                  | some cs9 =>
                    match takeChar ':' cs9 with
                    | none => false
                    | some cs10 =>
                      match takeDigits 2 cs10 with
                      | none => false
                      | some cs11 => matchFracAndOffset cs11

/-- A character the JS `String.prototype.trim` strips (ASCII whitespace
and line terminators; the exotic Unicode space separators JS would also
strip are not produced by any input the claims quantify over). -/
def isJsWhitespace (c : Char) : Bool :=
  c = ' ' || c = '\t' || c = '\n' || c = '\r' || c = '\x0b' || c = '\x0c'

/-- JS `s.trim()`: strip leading and trailing whitespace. -/
def jsTrim (s : String) : String :=
  ⟨((s.toList.dropWhile isJsWhitespace).reverse.dropWhile isJsWhitespace).reverse⟩

/-- One response carrying a `result` payload. -/
def resultResp (idv : Option Json) (r : Json) : Response :=
  { id := idv, body := RespBody.result r }

/-- The recurring tool-level error shape: a `result` envelope whose
`content` is one text item and whose `isError` is `true`. -/
def toolErrorText (idv : Option Json) (t : String) : Response :=
  resultResp idv (toolResult [textItem (Json.str t)] true)

/-- The JS test `typeof v !== 'string' || v.trim() === ''` used for every
required string argument. -/
def requiredStringMissing (v : Option Json) : Bool :=
  match v with
  | some (Json.str s) => jsTrim s == ""
  | _ => true

/-- One media item failing
`!item || typeof item !== 'object' || typeof item.file_url !== 'string' || typeof item.filename !== 'string'`. -/
def mediaItemBad (item : Json) : Bool :=
  !(truthy (some item)) || !(isObjectTypeV (some item)) ||
    !(isStringV (getProp (some item) "file_url")) ||
    !(isStringV (getProp (some item) "filename"))

/-- The JS test
`media && (!Array.isArray(media) || media.some(item => ...))` rejecting a
truthy `media` argument that is not an array of well-shaped items. -/
def mediaArgInvalid (media : Option Json) : Bool :=
  truthy media &&
    (match media with
     | some (Json.arr items) => items.any mediaItemBad
     | _ => true)

/-- The `publish_linkedin_post` branch of `tools/call`. -/
def publishLinkedinPost (args : Option Json) (apiKey : Option String)
    (idv : Option Json) (outcome : BackendOutcome) : HandleResult :=
  let postText := getProp args "post_text"
  let media := getProp args "media"
  if !(apiKeyOk apiKey) then
    { responses := [errResp idv (-32001) "Server Configuration Error: API Key not set."],
      backendCalled := false }
  else if requiredStringMissing postText then
    { responses := [errResp idv (-32602) "Invalid arguments: 'post_text' (string) required."],
      backendCalled := false }
  else if mediaArgInvalid media then
    { responses := [errResp idv (-32602) "Invalid arguments: 'media' must be an array of objects, each with 'file_url' and 'filename' strings."],
      backendCalled := false }
  else
    match outcome with
    | BackendOutcome.ok data =>
        if truthy data && truthy (getProp data "success") then
          let postDetails :=
            if truthy (getProp data "post_urn") then
              " (Post ID: " ++ jsToStringV (getProp data "post_urn") ++ ")"
            else ""
          { responses := [resultResp idv (toolResult
              [textItem (Json.str ("✅ Successfully published post to LinkedIn" ++ postDetails ++ "."))] false)],
            backendCalled := true }
        else
          let errorMessage := jsOr (getProp data "error") (Json.str "Backend API Error (no detail)")
          { responses := [toolErrorText idv ("Failed to publish post to LinkedIn: " ++ jsToString errorMessage)],
            backendCalled := true }
    | BackendOutcome.httpErr status _ =>
        { responses := [toolErrorText idv
            ("Failed to publish post to LinkedIn: Backend API Error (Status " ++ toString status ++ ")")],
          backendCalled := true }
    | BackendOutcome.noResponse =>
        { responses := [toolErrorText idv
            "Failed to publish post to LinkedIn: No response received from backend API."],
          backendCalled := true }
    | BackendOutcome.setupErr msg =>
        { responses := [toolErrorText idv
            ("Failed to publish post to LinkedIn: Failed to call backend API: " ++ msg)],
          backendCalled := true }

/-- The `schedule_linkedin_post` branch of `tools/call`. -/
def scheduleLinkedinPost (args : Option Json) (apiKey : Option String)
    (idv : Option Json) (outcome : BackendOutcome) : HandleResult :=
  let postText := getProp args "post_text"
  let scheduledDate := getProp args "scheduled_date"
  let media := getProp args "media"
  if !(apiKeyOk apiKey) then
    { responses := [errResp idv (-32001) "Server Configuration Error: API Key not set."],
      backendCalled := false }
  else if requiredStringMissing postText then
    { responses := [errResp idv (-32602) "Invalid arguments: 'post_text' (string) required."],
      backendCalled := false }
  else if requiredStringMissing scheduledDate then
    { responses := [errResp idv (-32602) "Invalid arguments: 'scheduled_date' (ISO 8601 string) required."],
      backendCalled := false }
  else if !(scheduledDateTest (jsToStringV scheduledDate)) then
    -- `scheduledDate` is a string here; `RegExp.test` would coerce anything
    -- else with ToString, which `jsToStringV` reproduces.
    { responses := [errResp idv (-32602) "Invalid arguments: 'scheduled_date' must be a valid ISO 8601 string (e.g., 2025-12-31T10:00:00Z)."],
      backendCalled := false }
  else if mediaArgInvalid media then
    { responses := [errResp idv (-32602) "Invalid arguments: 'media' must be an array of objects, each with 'file_url' and 'filename' strings."],
      backendCalled := false }
  else
    match outcome with
    | BackendOutcome.ok data =>
        if truthy data && truthy (getProp data "success") then
          let scheduleDetails :=
            if truthy (getProp data "scheduled_job_id") then
              " (Scheduled Job ID: " ++ jsToStringV (getProp data "scheduled_job_id") ++ ")"
            else ""
          { responses := [resultResp idv (toolResult
              [textItem (Json.str ("✅ Successfully scheduled post for LinkedIn" ++ scheduleDetails ++ "."))] false)],
            backendCalled := true }
        else
          let errorMessage := jsOr (getProp data "error") (Json.str "Backend API Error (no detail)")
          { responses := [toolErrorText idv ("Failed to schedule post for LinkedIn: " ++ jsToString errorMessage)],
            backendCalled := true }
    | BackendOutcome.httpErr status data =>
        let backendError := getProp data "error"
        let errorMessage :=
          if truthy backendError then "Backend API Error: " ++ jsToStringV backendError
          else "Backend API Error (Status " ++ toString status ++ ")"
        { responses := [toolErrorText idv ("Failed to schedule post for LinkedIn: " ++ errorMessage)],
          backendCalled := true }
    | BackendOutcome.noResponse =>
        { responses := [toolErrorText idv
            "Failed to schedule post for LinkedIn: No response received from backend schedule API."],
          backendCalled := true }
    | BackendOutcome.setupErr msg =>
        { responses := [toolErrorText idv
            ("Failed to schedule post for LinkedIn: Failed to call backend schedule API: " ++ msg)],
          backendCalled := true }

/-- The `publish_twitter_post` branch of `tools/call`. -/
def publishTwitterPost (args : Option Json) (apiKey : Option String)
    (idv : Option Json) (outcome : BackendOutcome) : HandleResult :=
  let postText := getProp args "post_text"
  if !(apiKeyOk apiKey) then
    { responses := [errResp idv (-32001) "Server Configuration Error: API Key not set."],
      backendCalled := false }
  else if requiredStringMissing postText then
    { responses := [errResp idv (-32602) "Invalid arguments: 'post_text' (string) required."],
      backendCalled := false }
  else
    match outcome with
    | BackendOutcome.ok data =>
        if truthy data && truthy (getProp data "success") then
          let tweetDetails :=
            if truthy (getProp data "tweet_id") then
              " (Tweet ID: " ++ jsToStringV (getProp data "tweet_id") ++ ")"
            else ""
          { responses := [resultResp idv (toolResult
              [textItem (Json.str ("✅ Successfully published tweet to Twitter" ++ tweetDetails ++ "."))] false)],
            backendCalled := true }
        else
          let errorMessage := jsOr (getProp data "error") (Json.str "Backend API Error (no detail)")
          { responses := [toolErrorText idv ("Failed to publish tweet to Twitter: " ++ jsToString errorMessage)],
            backendCalled := true }
    | BackendOutcome.httpErr status _ =>
        { responses := [toolErrorText idv
            ("Failed to publish tweet to Twitter: Twitter API Error (Status " ++ toString status ++ ")")],
          backendCalled := true }
    | BackendOutcome.noResponse =>
        { responses := [toolErrorText idv
            "Failed to publish tweet to Twitter: No response received from Twitter API."],
          backendCalled := true }
    | BackendOutcome.setupErr msg =>
        { responses := [toolErrorText idv
            ("Failed to publish tweet to Twitter: Failed to call Twitter API: " ++ msg)],
          backendCalled := true }

/-- The `analyze_linkedin_chat` branch of `tools/call`. -/
def analyzeLinkedinChat (args : Option Json) (apiKey : Option String)
    (idv : Option Json) (outcome : BackendOutcome) : HandleResult :=
  let query := getProp args "query"
  let conversationHistory := jsOr (getProp args "conversation_history") (Json.arr [])
  if !(apiKeyOk apiKey) then
    { responses := [errResp idv (-32001) "Server Configuration Error: API Key not set."],
      backendCalled := false }
  else if requiredStringMissing query then
    { responses := [errResp idv (-32602) "Invalid arguments: 'query' (string) required."],
      backendCalled := false }
  else if !(isArrayV (some conversationHistory)) then
    { responses := [errResp idv (-32602) "Invalid arguments: 'conversation_history' must be an array."],
      backendCalled := false }
  else
    match outcome with
    | BackendOutcome.ok data =>
        if truthy data && truthy (getProp data "reply") then
          -- `text: apiResponse.data.reply` — the reply value verbatim
          -- (present here, since it was just found truthy).
          { responses := [resultResp idv (toolResult
              [textItem ((getProp data "reply").getD Json.null)] false)],
            backendCalled := true }
        else
          let errorMessage := jsOr (getProp data "error") (Json.str "Backend API Error (no detail)")
          { responses := [toolErrorText idv ("Failed to analyze LinkedIn chat: " ++ jsToString errorMessage)],
            backendCalled := true }
    | BackendOutcome.httpErr status _ =>
        { responses := [toolErrorText idv
            ("Failed to analyze LinkedIn chat: Backend API Error (Status " ++ toString status ++ ")")],
          backendCalled := true }
    | BackendOutcome.noResponse =>
        { responses := [toolErrorText idv
            "Failed to analyze LinkedIn chat: No response received from analyze chat API."],
          backendCalled := true }
    | BackendOutcome.setupErr msg =>
        { responses := [toolErrorText idv
            ("Failed to analyze LinkedIn chat: Failed to call analyze chat API: " ++ msg)],
          backendCalled := true }

/-- The `generate_linkedin_post` branch of `tools/call`. -/
def generateLinkedinPost (args : Option Json) (apiKey : Option String)
    (idv : Option Json) (outcome : BackendOutcome) : HandleResult :=
  let content := getProp args "content"
  if !(apiKeyOk apiKey) then
    { responses := [errResp idv (-32001) "Server Configuration Error: API Key not set."],
      backendCalled := false }
  else if requiredStringMissing content then
    { responses := [errResp idv (-32602) "Invalid arguments: 'content' (string) required."],
      backendCalled := false }
  else
    match outcome with
    | BackendOutcome.ok data =>
        if truthy data && truthy (getProp data "success") then
          if truthy (getProp data "variants") && isArrayV (getProp data "variants") then
            let variants := match getProp data "variants" with
              | some (Json.arr vs) => vs
              | _ => []
            let contentItems :=
              textItem (Json.str ("Generated " ++ toString variants.length ++ " LinkedIn post variants:")) ::
                variants.mapIdx (fun index variant =>
                  textItem (Json.str ("Option " ++ toString (index + 1) ++ ":\n" ++ jsToString variant)))
            { responses := [resultResp idv (toolResult contentItems false)], backendCalled := true }
          else
            { responses := [resultResp idv (toolResult
                [textItem (jsOr (getProp data "message")
                  (Json.str "Successfully generated LinkedIn post, but no variants were returned. Please check the backend implementation."))] false)],
              backendCalled := true }
        else
          let errorMessage := jsOr (getProp data "error") (Json.str "Backend API Error (no detail)")
          { responses := [toolErrorText idv ("Failed to generate LinkedIn post: " ++ jsToString errorMessage)],
            backendCalled := true }
    | BackendOutcome.httpErr status _ =>
        { responses := [toolErrorText idv
            ("Failed to generate LinkedIn post: Backend API Error (Status " ++ toString status ++ ")")],
          backendCalled := true }
    | BackendOutcome.noResponse =>
        { responses := [toolErrorText idv
            "Failed to generate LinkedIn post: No response received from generate post API."],
          backendCalled := true }
    | BackendOutcome.setupErr msg =>
        { responses := [toolErrorText idv
            ("Failed to generate LinkedIn post: Failed to call generate post API: " ++ msg)],
          backendCalled := true }

/-- One element of the `posts.map(post => ...)` projection in
`get_linkedin_posts` (null/undefined posts become `{}`). -/
def formatPost (post : Json) : Json :=
  if !(truthy (some post)) then Json.obj []
  else Json.obj
    [("text", jsOr (getProp (some post) "text") (Json.str "")),
     ("postedDate", jsOr (getProp (some post) "postedDate") (jsOr (getProp (some post) "posted_at") (Json.str ""))),
     ("postUrl", jsOr (getProp (some post) "post_url") (jsOr (getProp (some post) "postUrl") (Json.str ""))),
     ("reactions", jsOr (getProp (some post) "total_reactions_count") (jsOr (getProp (some post) "reactions") (Json.num 0))),
     ("comments", jsOr (getProp (some post) "comments_count") (jsOr (getProp (some post) "comments") (Json.num 0))),
     ("reposts", jsOr (getProp (some post) "reposts_count") (jsOr (getProp (some post) "reposts") (Json.num 0)))]

/-- One block of the `postsAsText` rendering in `get_linkedin_posts`. -/
def formatPostBlock (index : Nat) (post : Json) : String :=
  "Post " ++ toString (index + 1) ++ ":\n" ++
  "Content: " ++ jsToStringV (getProp (some post) "text") ++ "\n" ++
  "Posted: " ++ jsToStringV (getProp (some post) "postedDate") ++ "\n" ++
  "URL: " ++ jsToStringV (getProp (some post) "postUrl") ++ "\n" ++
  "Metrics: " ++ jsToStringV (getProp (some post) "reactions") ++ " reactions, " ++
    jsToStringV (getProp (some post) "comments") ++ " comments, " ++
    jsToStringV (getProp (some post) "reposts") ++ " reposts\n"

/-- The `get_linkedin_posts` limit test
`typeof limit !== 'number' || limit < 1 || limit > 20` (on the already
defaulted `limit`). -/
def limitOutOfRange (limit : Json) : Bool :=
  match limit with
  | Json.num n => n < 1 || n > 20
  | _ => true

/-- The `get_linkedin_posts` branch of `tools/call`. -/
def getLinkedinPosts (args : Option Json) (apiKey : Option String)
    (idv : Option Json) (outcome : BackendOutcome) : HandleResult :=
  let limit := jsOr (getProp args "limit") (Json.num 5)
  if !(apiKeyOk apiKey) then
    { responses := [errResp idv (-32001) "Server Configuration Error: API Key not set."],
      backendCalled := false }
  else if limitOutOfRange limit then
    { responses := [errResp idv (-32602) "Invalid arguments: 'limit' must be a number between 1 and 20."],
      backendCalled := false }
  else
    match outcome with
    | BackendOutcome.ok data =>
        if truthy data && truthy (getProp data "success") then
          match jsOr (getProp data "posts") (Json.arr []) with
          | Json.arr postsList =>
              let formattedPosts :=
                (postsList.map formatPost).filter (fun post => truthy (getProp (some post) "text"))
              let dataInfo := jsOr (getProp data "data_last_updated") (Json.str "Unknown")
              let stalenessInfo := jsOr (getProp data "data_staleness_info") (Json.str "")
              let infoText :=
                if truthy (some stalenessInfo) then
                  "Found " ++ toString formattedPosts.length ++ " LinkedIn posts. Last updated: " ++
                    jsToString dataInfo ++ ". " ++ jsToString stalenessInfo
                else
                  "Found " ++ toString formattedPosts.length ++ " LinkedIn posts. Last updated: " ++
                    jsToString dataInfo
              let postsAsText := String.intercalate "\n\n" (formattedPosts.mapIdx formatPostBlock)
              { responses := [resultResp idv (toolResult
                  [textItem (Json.str infoText), textItem (Json.str postsAsText)] false)],
                backendCalled := true }
          | _ =>
              -- a truthy non-array `posts` makes `posts.map` raise a TypeError
              -- inside the try block; the catch sees neither `error.response`
              -- nor `error.request` and reports `error.message` (the engine's
              -- text for calling `.map` on a non-function member).
              { responses := [toolErrorText idv
                  "Failed to get LinkedIn posts: Failed to call LinkedIn posts API: posts.map is not a function"],
                backendCalled := true }
        else
          let errorMessage := jsOr (getProp data "error")
            (jsOr (getProp data "message") (Json.str "Backend API Error (no detail)"))
          let suggestion :=
            if truthy (getProp data "suggestion") then
              "\n\nSuggestion: " ++ jsToStringV (getProp data "suggestion")
            else ""
          { responses := [toolErrorText idv
              ("Failed to get LinkedIn posts: " ++ jsToString errorMessage ++ suggestion)],
            backendCalled := true }
    | BackendOutcome.httpErr status body =>
        let responseData := jsOr body (Json.obj [])
        let extractedError := jsOr (getProp (some responseData) "error")
          (jsOr (getProp (some responseData) "message")
            (if isStringV (some responseData) then responseData else Json.null))
        let errorMessage :=
          if status = 404 then
            let base := "LinkedIn posts not found. Make sure you've set your LinkedIn URL using set_linkedin_url tool and that the profile is publicly accessible."
            if truthy (getProp (some responseData) "suggestion") then
              base ++ "\n\nSuggestion: " ++ jsToStringV (getProp (some responseData) "suggestion")
            else base
          else if status = 401 || status = 403 then
            "Authentication error. Your API key may be invalid or expired."
          else
            "Backend API Error (Status " ++ toString status ++ "): " ++
              jsToString (jsOr (some extractedError) (Json.str "Unknown error"))
        { responses := [toolErrorText idv ("Failed to get LinkedIn posts: " ++ errorMessage)],
          backendCalled := true }
    | BackendOutcome.noResponse =>
        { responses := [toolErrorText idv
            "Failed to get LinkedIn posts: No response received from LinkedIn posts API. The server may be unavailable or experiencing issues."],
          backendCalled := true }
    | BackendOutcome.setupErr msg =>
        { responses := [toolErrorText idv
            ("Failed to get LinkedIn posts: Failed to call LinkedIn posts API: " ++ msg)],
          backendCalled := true }

/-- One experience entry of the `get_linkedin_profile` text rendering
(`exp` is non-null here; a null entry aborts to the catch instead). -/
def formatExperienceEntry (index : Nat) (exp : Json) : String :=
  "\n\n" ++ toString (index + 1) ++ ". " ++
    jsToString (jsOr (getProp (some exp) "title") (Json.str "Role")) ++ " at " ++
    jsToString (jsOr (getProp (some exp) "companyName") (Json.str "Company")) ++
  (if truthy (getProp (some exp) "dateRange") || truthy (getProp (some exp) "duration") then
    "\n   Duration: " ++
      jsToString (jsOr (getProp (some exp) "dateRange")
        (jsOr (getProp (some exp) "duration") (Json.str "Not specified")))
   else "") ++
  (if truthy (getProp (some exp) "description") then
    "\n   Description: " ++ jsToStringV (getProp (some exp) "description")
   else "")

/-- One education entry of the `get_linkedin_profile` text rendering.
The degree/field line is the whole template `\n   degree field` passed
through `.trim()`, so its leading newline and padding are stripped. -/
def formatEducationEntry (index : Nat) (edu : Json) : String :=
  "\n\n" ++ toString (index + 1) ++ ". " ++
    jsToString (jsOr (getProp (some edu) "schoolName")
      (jsOr (getProp (some edu) "school") (Json.str "Institution"))) ++
  (if truthy (getProp (some edu) "degree") || truthy (getProp (some edu) "fieldOfStudy") then
    jsTrim ("\n   " ++ jsToString (jsOr (getProp (some edu) "degree") (Json.str "")) ++ " " ++
      jsToString (jsOr (getProp (some edu) "fieldOfStudy") (Json.str "")))
   else "") ++
  (if truthy (getProp (some edu) "dateRange") || truthy (getProp (some edu) "dates") then
    "\n   Years: " ++
      jsToString (jsOr (getProp (some edu) "dateRange")
        (jsOr (getProp (some edu) "dates") (Json.str "Not specified")))
   else "")

/-- The `get_linkedin_profile` branch of `tools/call`. -/
def getLinkedinProfile (apiKey : Option String)
    (idv : Option Json) (outcome : BackendOutcome) : HandleResult :=
  if !(apiKeyOk apiKey) then
    { responses := [errResp idv (-32001) "Server Configuration Error: API Key not set."],
      backendCalled := false }
  else
    match outcome with
    | BackendOutcome.ok data =>
        if truthy data && truthy (getProp data "success") then
          let profile := jsOr (getProp data "profile") (Json.obj [])
          let experienceArr := match getProp (some profile) "experience" with
            | some (Json.arr xs) =>
                if truthy (getProp (some profile) "experience") then some xs else none
            | _ => none
          let educationArr := match getProp (some profile) "education" with
            | some (Json.arr xs) =>
                if truthy (getProp (some profile) "education") then some xs else none
            | _ => none
          -- a null entry in either list makes `exp.title` / `edu.schoolName`
          -- raise a TypeError inside the try block; the catch sees neither
          -- `error.response` nor `error.request` and reports `error.message`.
          if (experienceArr.getD []).any isNullJson then
            { responses := [toolErrorText idv
                "Failed to get LinkedIn profile: Failed to call LinkedIn profile API: Cannot read properties of null (reading 'title')"],
              backendCalled := true }
          else if (educationArr.getD []).any isNullJson then
            { responses := [toolErrorText idv
                "Failed to get LinkedIn profile: Failed to call LinkedIn profile API: Cannot read properties of null (reading 'schoolName')"],
              backendCalled := true }
          else
            let profileHeadline := jsOr (getProp (some profile) "headline") (Json.str "No headline")
            let profileSummary := jsOr (getProp (some profile) "summary") (Json.str "No summary")
            let experienceText := "Experience:" ++
              (match experienceArr with
               | some exps =>
                   if exps.length > 0 then String.join (exps.mapIdx formatExperienceEntry)
                   else "\n   No experience data available"
               | none => "\n   No experience data available")
            let educationText := "\n\nEducation:" ++
              (match educationArr with
               | some edus =>
                   if edus.length > 0 then String.join (edus.mapIdx formatEducationEntry)
                   else "\n   No education data available"
               | none => "\n   No education data available")
            let profileText := "Headline: " ++ jsToString profileHeadline ++
              "\n\nSummary: " ++ jsToString profileSummary ++ "\n\n" ++
              experienceText ++ educationText
            { responses := [resultResp idv (toolResult
                [textItem (Json.str ("LinkedIn profile data retrieved. Last updated: " ++
                   jsToString (jsOr (getProp data "data_last_updated") (Json.str "Unknown")))),
                 textItem (Json.str profileText)] false)],
              backendCalled := true }
        else
          let errorMessage := jsOr (getProp data "error") (Json.str "Backend API Error (no detail)")
          { responses := [toolErrorText idv
              ("Failed to get LinkedIn profile: " ++ jsToString errorMessage ++
                ". This may occur if you haven't set your LinkedIn URL yet. Try using the set_linkedin_url tool first.")],
            backendCalled := true }
    | BackendOutcome.httpErr status body =>
        let responseData := jsOr body (Json.obj [])
        let extractedError := jsOr (getProp (some responseData) "error")
          (if isStringV (some responseData) then responseData else Json.null)
        let errorMessage :=
          if status = 404 then
            "LinkedIn profile not found. Make sure you've set your LinkedIn URL using set_linkedin_url tool and that the profile is publicly accessible."
          else if status = 401 || status = 403 then
            "Authentication error. Your API key may be invalid or expired."
          else
            "Backend API Error (Status " ++ toString status ++ "): " ++
              jsToString (jsOr (some extractedError) (Json.str "Unknown error"))
        { responses := [toolErrorText idv ("Failed to get LinkedIn profile: " ++ errorMessage)],
          backendCalled := true }
    | BackendOutcome.noResponse =>
        { responses := [toolErrorText idv
            "Failed to get LinkedIn profile: No response received from LinkedIn profile API. The server may be unavailable or experiencing issues."],
          backendCalled := true }
    | BackendOutcome.setupErr msg =>
        { responses := [toolErrorText idv
            ("Failed to get LinkedIn profile: Failed to call LinkedIn profile API: " ++ msg)],
          backendCalled := true }

/-- The `set_linkedin_url` branch of `tools/call`. -/
def setLinkedinUrl (args : Option Json) (apiKey : Option String)
    (idv : Option Json) (outcome : BackendOutcome) : HandleResult :=
  let linkedinUrl := getProp args "linkedin_url"
  if !(apiKeyOk apiKey) then
    { responses := [errResp idv (-32001) "Server Configuration Error: API Key not set."],
      backendCalled := false }
  else if requiredStringMissing linkedinUrl then
    { responses := [errResp idv (-32602) "Invalid arguments: 'linkedin_url' (string) required."],
      backendCalled := false }
  else
    match outcome with
    | BackendOutcome.ok data =>
        if truthy data && truthy (getProp data "success") then
          { responses := [resultResp idv (toolResult
              [textItem (jsOr (getProp data "message") (Json.str "Successfully set LinkedIn URL."))] false)],
            backendCalled := true }
        else
          let errorMessage := jsOr (getProp data "error") (Json.str "Backend API Error (no detail)")
          { responses := [toolErrorText idv
              ("Failed to set LinkedIn URL: " ++ jsToString errorMessage ++
                ". Please ensure the URL is a valid LinkedIn profile URL (e.g., https://www.linkedin.com/in/username/).")],
            backendCalled := true }
    | BackendOutcome.httpErr status body =>
        let errorMessage :=
          if status = 400 then
            "Invalid LinkedIn URL format. Please provide a complete LinkedIn profile URL (e.g., https://www.linkedin.com/in/username/)."
          else if status = 401 || status = 403 then
            "Authentication error. Your API key may be invalid or expired."
          else
            "Backend API Error (Status " ++ toString status ++ "): " ++
              jsToString (jsOr (getProp body "error") (Json.str "Unknown error"))
        { responses := [toolErrorText idv ("Failed to set LinkedIn URL: " ++ errorMessage)],
          backendCalled := true }
    | BackendOutcome.noResponse =>
        { responses := [toolErrorText idv
            "Failed to set LinkedIn URL: No response received from set LinkedIn URL API. The server may be unavailable or experiencing issues."],
          backendCalled := true }
    | BackendOutcome.setupErr msg =>
        { responses := [toolErrorText idv
            ("Failed to set LinkedIn URL: Failed to call set LinkedIn URL API: " ++ msg)],
          backendCalled := true }

/-- The `refresh_linkedin_profile` branch of `tools/call`. -/
def refreshLinkedinProfile (apiKey : Option String)
    (idv : Option Json) (outcome : BackendOutcome) : HandleResult :=
  if !(apiKeyOk apiKey) then
    { responses := [errResp idv (-32001) "Server Configuration Error: API Key not set."],
      backendCalled := false }
  else
    match outcome with
    | BackendOutcome.ok data =>
        if truthy data && truthy (getProp data "success") then
          { responses := [resultResp idv (toolResult
              [textItem (jsOr (getProp data "message") (Json.str "Successfully refreshed LinkedIn profile data."))] false)],
            backendCalled := true }
        else
          let errorMessage := jsOr (getProp data "error") (Json.str "Backend API Error (no detail)")
          { responses := [toolErrorText idv ("Failed to refresh LinkedIn profile: " ++ jsToString errorMessage)],
            backendCalled := true }
    | BackendOutcome.httpErr status body =>
        let responseData := jsOr body (Json.obj [])
        let extractedError := jsOr (getProp (some responseData) "error")
          (if isStringV (some responseData) then responseData else Json.null)
        { responses := [toolErrorText idv
            ("Failed to refresh LinkedIn profile: Backend API Error (Status " ++ toString status ++ "): " ++
              jsToString (jsOr (some extractedError) (Json.str "Unknown error")))],
          backendCalled := true }
    | BackendOutcome.noResponse =>
        { responses := [toolErrorText idv
            "Failed to refresh LinkedIn profile: No response received from refresh LinkedIn profile API."],
          backendCalled := true }
    | BackendOutcome.setupErr msg =>
        { responses := [toolErrorText idv
            ("Failed to refresh LinkedIn profile: Failed to call refresh LinkedIn profile API: " ++ msg)],
          backendCalled := true }

/-- The `refresh_linkedin_posts` branch of `tools/call`. -/
def refreshLinkedinPosts (apiKey : Option String)
    (idv : Option Json) (outcome : BackendOutcome) : HandleResult :=
  if !(apiKeyOk apiKey) then
    { responses := [errResp idv (-32001) "Server Configuration Error: API Key not set."],
      backendCalled := false }
  else
    match outcome with
    | BackendOutcome.ok data =>
        if truthy data && truthy (getProp data "success") then
          { responses := [resultResp idv (toolResult
              [textItem (jsOr (getProp data "message") (Json.str "Successfully refreshed LinkedIn posts data."))] false)],
            backendCalled := true }
        else
          let errorMessage := jsOr (getProp data "error") (Json.str "Backend API Error (no detail)")
          { responses := [toolErrorText idv ("Failed to refresh LinkedIn posts: " ++ jsToString errorMessage)],
            backendCalled := true }
    | BackendOutcome.httpErr status body =>
        let responseData := jsOr body (Json.obj [])
        let extractedError := jsOr (getProp (some responseData) "error")
          (if isStringV (some responseData) then responseData else Json.null)
        { responses := [toolErrorText idv
            ("Failed to refresh LinkedIn posts: Backend API Error (Status " ++ toString status ++ "): " ++
              jsToString (jsOr (some extractedError) (Json.str "Unknown error")))],
          backendCalled := true }
    | BackendOutcome.noResponse =>
        { responses := [toolErrorText idv
            "Failed to refresh LinkedIn posts: No response received from refresh LinkedIn posts API."],
          backendCalled := true }
    | BackendOutcome.setupErr msg =>
        { responses := [toolErrorText idv
            ("Failed to refresh LinkedIn posts: Failed to call refresh LinkedIn posts API: " ++ msg)],
          backendCalled := true }

/-- `packageName`, also the fallback for `publishedPackageName` and paired
with fallback version `0.0.0`: the source overrides both from a
`package.json` next to the script when one exists; the fallbacks are the
values used when it is absent (nothing the claims touch depends on them). -/
def packageName : String := "linkedin-mcp-runner"

/-- See `packageName`. -/
def publishedPackageName : String := packageName

/-- See `packageName`. -/
def packageVersion : String := "0.0.0"

/-- The `result` of the `initialize` method. -/
def initializeResult : Json :=
  Json.obj
    [("protocolVersion", Json.str "2024-11-05"),
     ("capabilities", Json.obj
       [("experimental", Json.obj []),
        ("prompts", Json.obj [("listChanged", Json.bool false)]),
        ("resources", Json.obj [("subscribe", Json.bool false), ("listChanged", Json.bool false)]),
        ("tools", Json.obj [("listChanged", Json.bool false)])]),
     ("serverInfo", Json.obj
       [("name", Json.str publishedPackageName),
        ("version", Json.str packageVersion)])]

/-- The `media` property schema, written out verbatim twice in the source
(once under `publish_linkedin_post`, once under `schedule_linkedin_post`,
differing only in the example filename of the item description). -/
def mediaPropertySchema (exampleFilename : String) : Json :=
  Json.obj
    [("type", Json.str "array"),
     ("description", Json.str ("Optional. A list of media items to attach to the post. Each item must have a 'file_url' pointing to a direct image or video URL and a 'filename'.")),
     ("items", Json.obj
       [("type", Json.str "object"),
        ("properties", Json.obj
          [("file_url", Json.obj
             [("type", Json.str "string"),
              ("description", Json.str "A direct URL to the image or video file (e.g., ending in .jpg, .png, .mp4).")]),
           ("filename", Json.obj
             [("type", Json.str "string"),
              ("description", Json.str ("A filename for the media item (e.g., '" ++ exampleFilename ++ "')."))])]),
        ("required", Json.arr [Json.str "file_url", Json.str "filename"])])]

/-- The `result` of `tools/list`: the full static tool catalog. -/
def toolsListResult : Json :=
  Json.obj [("tools", Json.arr
    [Json.obj
      [("name", Json.str "publish_linkedin_post"),
       ("description", Json.str "Publish a text post to LinkedIn, optionally including media (images/videos) specified by URL."),
       ("inputSchema", Json.obj
         [("type", Json.str "object"),
          ("properties", Json.obj
            [("post_text", Json.obj
               [("type", Json.str "string"),
                ("description", Json.str "The text content of the LinkedIn post.")]),
             ("media", mediaPropertySchema "promo_video.mp4")]),
          ("required", Json.arr [Json.str "post_text"])])],
     Json.obj
      [("name", Json.str "schedule_linkedin_post"),
       ("description", Json.str "Schedule a text post for LinkedIn at a specific future date and time, optionally including media (images/videos) specified by URL."),
       ("inputSchema", Json.obj
         [("type", Json.str "object"),
          ("properties", Json.obj
            [("post_text", Json.obj
               [("type", Json.str "string"),
                ("description", Json.str "The text content of the LinkedIn post to be scheduled.")]),
             ("scheduled_date", Json.obj
               [("type", Json.str "string"),
                ("description", Json.str "The date and time to publish the post, in ISO 8601 format (e.g., '2025-12-31T10:00:00Z' or '2025-12-31T15:30:00+05:30'). Must be in the future.")]),
             ("media", mediaPropertySchema "meeting_notes.mp4")]),
          ("required", Json.arr [Json.str "post_text", Json.str "scheduled_date"])])],
     Json.obj
      [("name", Json.str "publish_twitter_post"),
       ("description", Json.str "Publish a text post (tweet) to Twitter."),
       ("inputSchema", Json.obj
         [("type", Json.str "object"),
          ("properties", Json.obj
            [("post_text", Json.obj
               [("type", Json.str "string"),
                ("description", Json.str "The text content of the tweet (maximum 280 characters).")])]),
          ("required", Json.arr [Json.str "post_text"])])],
     Json.obj
      [("name", Json.str "analyze_linkedin_chat"),
       ("description", Json.str "Ask questions about the user's LinkedIn profile, content, or network, with support for multi-turn conversations."),
       ("inputSchema", Json.obj
         [("type", Json.str "object"),
          ("properties", Json.obj
            [("query", Json.obj
               [("type", Json.str "string"),
                ("description", Json.str "The question or request about LinkedIn data to be analyzed.")]),
             ("conversation_history", Json.obj
               [("type", Json.str "array"),
                ("description", Json.str "Optional. Previous messages in the conversation for context. Each message must have 'role' (user/assistant) and 'content' (text)."),
                ("items", Json.obj
                  [("type", Json.str "object"),
                   ("properties", Json.obj
                     [("role", Json.obj
                        [("type", Json.str "string"),
                         ("description", Json.str "The sender of the message: 'user' or 'assistant'.")]),
                      ("content", Json.obj
                        [("type", Json.str "string"),
                         ("description", Json.str "The text content of the message.")])]),
                   ("required", Json.arr [Json.str "role", Json.str "content"])])])]),
          ("required", Json.arr [Json.str "query"])])],
     Json.obj
      [("name", Json.str "generate_linkedin_post"),
       ("description", Json.str "Generate three LinkedIn post variants from any content (article, newsletter, notes, etc.) to optimize engagement."),
       ("inputSchema", Json.obj
         [("type", Json.str "object"),
          ("properties", Json.obj
            [("content", Json.obj
               [("type", Json.str "string"),
                ("description", Json.str "The source content to transform into LinkedIn posts. Can be articles, emails, newsletters, notes, etc.")]),
             ("content_type", Json.obj
               [("type", Json.str "string"),
                ("description", Json.str "Optional. A short description of the content type (e.g., 'article', 'newsletter', 'notes'). Defaults to 'article'.")])]),
          ("required", Json.arr [Json.str "content"])])],
     Json.obj
      [("name", Json.str "get_linkedin_posts"),
       ("description", Json.str "Retrieve the user's recent LinkedIn posts with engagement metrics."),
       ("inputSchema", Json.obj
         [("type", Json.str "object"),
          ("properties", Json.obj
            [("limit", Json.obj
               [("type", Json.str "number"),
                ("description", Json.str "Optional. Number of posts to retrieve (1-20). Defaults to 5.")])])])],
     Json.obj
      [("name", Json.str "get_linkedin_profile"),
       ("description", Json.str "Retrieve the user's LinkedIn profile information including headline, summary, experience, and education."),
       ("inputSchema", Json.obj
         [("type", Json.str "object"),
          ("properties", Json.obj [])])],
     Json.obj
      [("name", Json.str "set_linkedin_url"),
       ("description", Json.str "Set or update the LinkedIn profile URL to analyze. Required before using profile/posts retrieval tools if not set previously."),
       ("inputSchema", Json.obj
         [("type", Json.str "object"),
          ("properties", Json.obj
            [("linkedin_url", Json.obj
               [("type", Json.str "string"),
                ("description", Json.str "The full LinkedIn profile URL (e.g., https://www.linkedin.com/in/username/)")])]),
          ("required", Json.arr [Json.str "linkedin_url"])])],
     Json.obj
      [("name", Json.str "refresh_linkedin_profile"),
       ("description", Json.str "Force a refresh of the LinkedIn profile data to update any recent changes."),
       ("inputSchema", Json.obj
         [("type", Json.str "object"),
          ("properties", Json.obj [])])],
     Json.obj
      [("name", Json.str "refresh_linkedin_posts"),
       ("description", Json.str "Force a refresh of LinkedIn posts data to capture recently published content."),
       ("inputSchema", Json.obj
         [("type", Json.str "object"),
          ("properties", Json.obj [])])]])]

/-- The `tools/call` method: the params-shape check
`!params || typeof params !== 'object'`, then dispatch on `params.name`
over the ten registered tools, unknown names answered with `-32601`. -/
def toolsCall (params : Option Json) (apiKey : Option String)
    (idv : Option Json) (outcome : BackendOutcome) : HandleResult :=
  if !(truthy params && isObjectTypeV params) then
    { responses := [errResp idv (-32602) "Invalid params for tools/call"], backendCalled := false }
  else
    let name := getProp params "name"
    let args := getProp params "arguments"
    if strictEqStr name "publish_linkedin_post" then publishLinkedinPost args apiKey idv outcome
    else if strictEqStr name "schedule_linkedin_post" then scheduleLinkedinPost args apiKey idv outcome
    else if strictEqStr name "publish_twitter_post" then publishTwitterPost args apiKey idv outcome
    else if strictEqStr name "analyze_linkedin_chat" then analyzeLinkedinChat args apiKey idv outcome
    else if strictEqStr name "generate_linkedin_post" then generateLinkedinPost args apiKey idv outcome
    else if strictEqStr name "get_linkedin_posts" then getLinkedinPosts args apiKey idv outcome
    else if strictEqStr name "get_linkedin_profile" then getLinkedinProfile apiKey idv outcome
    else if strictEqStr name "set_linkedin_url" then setLinkedinUrl args apiKey idv outcome
    else if strictEqStr name "refresh_linkedin_profile" then refreshLinkedinProfile apiKey idv outcome
    else if strictEqStr name "refresh_linkedin_posts" then refreshLinkedinPosts apiKey idv outcome
    else
      { responses := [errResp idv (-32601) ("Tool not found: " ++ jsToStringV name)],
        backendCalled := false }

/-- The structure guard of `handleRequest`:
`!request || typeof request !== 'object' || request.jsonrpc !== '2.0' || !request.id === undefined || typeof request.method !== 'string'`.
The fourth disjunct compares a boolean with `undefined` and is therefore
constantly false, which the embedding keeps as a literal `false`. -/
def malformedRequest (request : Json) : Bool :=
  !(truthy (some request)) || !(isObjectTypeV (some request)) ||
    !(strictEqStr (getProp (some request) "jsonrpc") "2.0") ||
    false ||
    !(isStringV (getProp (some request) "method"))

/-- `method.split('/')[0]`. -/
def splitHeadAtSlash (s : String) : String :=
  s.takeWhile (fun c => c ≠ '/')

/-- `handleRequest` on one decoded request.  `outcome` is the result of
the one backend HTTP call the request may perform; `backendCalled` in the
result records whether that call was made. -/
def handleRequest (request : Json) (env : Env) (outcome : BackendOutcome) : HandleResult :=
  let guardId := (getProp (some request) "id").getD Json.null
  let methodIsInitialize := strictEqStr (getProp (some request) "method") "initialize"
  if malformedRequest request && !(isNullJson guardId) && !methodIsInitialize then
    { responses := [errResp (some guardId) (-32600) "Invalid Request Structure"],
      backendCalled := false }
  else if malformedRequest request && isNullJson guardId && !methodIsInitialize then
    { responses := [], backendCalled := false }
  else
    -- `const { method, params, id } = request` — reachable only when
    -- `request` is an object: a malformed request escapes the guard only
    -- when its `method` property is the string "initialize".
    let method := getProp (some request) "method"
    let params := getProp (some request) "params"
    let idv := getProp (some request) "id"
    if strictEqStr method "initialize" then
      { responses := [resultResp idv initializeResult], backendCalled := false }
    else if strictEqStr method "tools/call" then
      toolsCall params env.apiKey idv outcome
    else if strictEqStr method "tools/list" then
      { responses := [resultResp idv toolsListResult], backendCalled := false }
    else if strictEqStr method "resources/list" || strictEqStr method "prompts/list" then
      { responses := [resultResp idv (Json.obj [(splitHeadAtSlash (jsToStringV method), Json.arr [])])],
        backendCalled := false }
    else if strictEqStr method "notifications/initialized" then
      { responses := [], backendCalled := false }
    else
      { responses := [errResp idv (-32601) ("Method not found: " ++ jsToStringV method)],
        backendCalled := false }

/-- The `-32700` line emitted when `JSON.parse` throws (its `id` field is
the explicit JSON `null`, not an omitted key). -/
def parseErrorResponse : Response :=
  errResp (some Json.null) (-32700) "Parse error"

/-- The `rl.on('line', ...)` handler of `startMcpServer` for one input
line, with the `JSON.parse` library call abstracted to its result: `none`
is a line strict JSON parsing rejects.  The handler's `.catch` never
fires: every branch of `handleRequest` resolves with its responses. -/
def processLine (parsed : Option Json) (env : Env) (outcome : BackendOutcome) : List Response :=
  match parsed with
  | none => [parseErrorResponse]
  | some request => (handleRequest request env outcome).responses

/-- All responses of a sequence of input lines, each line carrying the
outcome of the backend call its request may make. -/
def serverTrace (env : Env) : List (Option Json × BackendOutcome) → List Response
  | [] => []
  | (parsed, outcome) :: rest => processLine parsed env outcome ++ serverTrace env rest

/-- An external event the running process observes: an interrupt signal,
a polite termination signal, one stdin line, or stdin closing. -/
inductive HostEvent where
  | sigint
  | sigterm
  | stdinLine (parsed : Option Json) (outcome : BackendOutcome)
  | stdinClose

/-- Lifecycle state of the process. -/
inductive ProcState where
  | serving
  | exited (code : Nat)
deriving DecidableEq

/-- The signal and listener dispositions installed by `main` /
`startMcpServer`: SIGINT exits with code 0; the SIGTERM handler only logs
and keeps serving; a line is processed by the line handler; `rl.on('close')`
also only logs (the keep-alive interval pins the event loop). -/
def stepEvent (env : Env) : ProcState → HostEvent → ProcState × List Response
  | ProcState.serving, HostEvent.sigint => (ProcState.exited 0, [])
  | ProcState.serving, HostEvent.sigterm => (ProcState.serving, [])
  | ProcState.serving, HostEvent.stdinLine parsed outcome =>
      (ProcState.serving, processLine parsed env outcome)
  | ProcState.serving, HostEvent.stdinClose => (ProcState.serving, [])
  | ProcState.exited c, _ => (ProcState.exited c, [])

/-- Run the process over a sequence of host events. -/
def runEvents (env : Env) : ProcState → List HostEvent → ProcState × List Response
  | s, [] => (s, [])
  | s, e :: es =>
    let (s1, out) := stepEvent env s e
    let (s2, rest) := runEvents env s1 es
    (s2, out ++ rest)

/-- The stdin lines among a sequence of host events. -/
def lineEventsOf : List HostEvent → List (Option Json × BackendOutcome)
  | [] => []
  | HostEvent.stdinLine parsed outcome :: es => (parsed, outcome) :: lineEventsOf es
  | _ :: es => lineEventsOf es

/-- The ten tool names the `tools/call` dispatch chain recognises. -/
def knownToolName (name : Option Json) : Bool :=
  strictEqStr name "publish_linkedin_post" || strictEqStr name "schedule_linkedin_post" ||
  strictEqStr name "publish_twitter_post" || strictEqStr name "analyze_linkedin_chat" ||
  strictEqStr name "generate_linkedin_post" || strictEqStr name "get_linkedin_posts" ||
  strictEqStr name "get_linkedin_profile" || strictEqStr name "set_linkedin_url" ||
  strictEqStr name "refresh_linkedin_profile" || strictEqStr name "refresh_linkedin_posts"

/-- The success test `apiResponse.data && apiResponse.data.success` run by
nine of the ten tools on a 2xx body. -/
def successTruthy (data : Option Json) : Bool :=
  truthy data && truthy (getProp data "success")

/-- The success test `apiResponse.data && apiResponse.data.reply` that
`analyze_linkedin_chat` runs instead. -/
def replyTruthy (data : Option Json) : Bool :=
  truthy data && truthy (getProp data "reply")

/-- The success indicator a tool checks on a 2xx body: the `reply` field
for `analyze_linkedin_chat`, the `success` flag for every other tool. -/
def successIndicatorFor (name : Option Json) : Option Json → Bool :=
  if strictEqStr name "analyze_linkedin_chat" then replyTruthy else successTruthy

/-- A handler run that stopped before the backend call: one JSON-RPC
error envelope, code `-32001` (missing credential) or `-32602` (invalid
arguments), and no HTTP request made. -/
def localErrorCase (r : HandleResult) (idv : Option Json) : Prop :=
  ∃ c m, r = { responses := [errResp idv c m], backendCalled := false } ∧
    (c = -32001 ∨ c = -32602)

/-- A handler run that reached the backend and answered with the
tool-level error shape: one `result` envelope, `isError: true`, one
explanatory text item. -/
def toolErrorCase (r : HandleResult) (idv : Option Json) : Prop :=
  ∃ t, r = { responses := [toolErrorText idv t], backendCalled := true }

/-- A handler run that reached the backend, found the success indicator
`ind` truthy on a 2xx body, and answered with one `isError: false`
`result` envelope. -/
def successCaseWith (ind : Option Json → Bool) (r : HandleResult) (idv : Option Json)
    (out : BackendOutcome) : Prop :=
  ∃ data items, out = BackendOutcome.ok data ∧ ind data = true ∧
    r = { responses := [resultResp idv (toolResult items false)], backendCalled := true }

/-- A backend outcome that is a failure for success indicator `ind`: a
2xx body lacking the indicator, a non-2xx HTTP status, no response
received, or a request that could not be issued. -/
def backendFailureW (ind : Option Json → Bool) : BackendOutcome → Prop
  | BackendOutcome.ok data => ind data = false
  | _ => True

/-- A backend outcome that is a failure for the tool named `name`. -/
def backendFailureOutcome (name : Option Json) (out : BackendOutcome) : Prop :=
  backendFailureW (successIndicatorFor name) out

/-- A well-formed request whose method is `notifications/initialized` and
which nevertheless carries a (non-null) id. -/
def notificationWithIdRequest : Json :=
  Json.obj [("jsonrpc", Json.str "2.0"), ("method", Json.str "notifications/initialized"),
            ("id", Json.num 7)]

/-- A well-formed `tools/list` request with no `id` member at all — per
the spec a notification that should draw no response. -/
def idlessToolsListRequest : Json :=
  Json.obj [("jsonrpc", Json.str "2.0"), ("method", Json.str "tools/list")]

/-- `tools/call` params naming an unregistered tool and carrying no
`arguments` member. -/
def unknownToolParams : Json :=
  Json.obj [("name", Json.str "no_such_tool")]

/-- `get_linkedin_posts` arguments with `limit: 0`. -/
def zeroLimitArgs : Json :=
  Json.obj [("limit", Json.num 0)]

lemma strictEqStr_true {v : Option Json} {s : String} :
    strictEqStr v s = true ↔ v = some (Json.str s) := by
  cases v with
  | none => simp [strictEqStr]
  | some j => cases j <;> simp [strictEqStr]

lemma params_object_of_name {params : Option Json} {s : String}
    (h : strictEqStr (getProp params "name") s = true) :
    (truthy params && isObjectTypeV params) = true := by
  cases params with
  | none => simp [getProp, strictEqStr] at h
  | some j => cases j <;> simp [getProp, strictEqStr, truthy, isObjectTypeV] at h ⊢

lemma knownTool_params_object {params : Option Json}
    (h : knownToolName (getProp params "name") = true) :
    (truthy params && isObjectTypeV params) = true := by
  simp only [knownToolName, Bool.or_eq_true] at h
  rcases h with ((((((((h | h) | h) | h) | h) | h) | h) | h) | h) | h <;>
    exact params_object_of_name h

lemma isNullJson_false_of_ne {j : Json} (h : j ≠ Json.null) : isNullJson j = false := by
  cases j <;> first | exact absurd rfl h | rfl

lemma publishLinkedinPost_cases (args : Option Json) (key : Option String)
    (idv : Option Json) (out : BackendOutcome) :
    localErrorCase (publishLinkedinPost args key idv out) idv
    ∨ toolErrorCase (publishLinkedinPost args key idv out) idv
    ∨ successCaseWith successTruthy (publishLinkedinPost args key idv out) idv out := by
  unfold publishLinkedinPost
  dsimp only
  repeat' split
  all_goals first
    | exact Or.inl ⟨_, _, rfl, Or.inl rfl⟩
    | exact Or.inl ⟨_, _, rfl, Or.inr rfl⟩
    | exact Or.inr (Or.inl ⟨_, rfl⟩)
    | (refine Or.inr (Or.inr ⟨_, _, rfl, ?_, rfl⟩); assumption)

lemma scheduleLinkedinPost_cases (args : Option Json) (key : Option String)
    (idv : Option Json) (out : BackendOutcome) :
    localErrorCase (scheduleLinkedinPost args key idv out) idv
    ∨ toolErrorCase (scheduleLinkedinPost args key idv out) idv
    ∨ successCaseWith successTruthy (scheduleLinkedinPost args key idv out) idv out := by
  unfold scheduleLinkedinPost
  dsimp only
  repeat' split
  all_goals first
    | exact Or.inl ⟨_, _, rfl, Or.inl rfl⟩
    | exact Or.inl ⟨_, _, rfl, Or.inr rfl⟩
    | exact Or.inr (Or.inl ⟨_, rfl⟩)
    | (refine Or.inr (Or.inr ⟨_, _, rfl, ?_, rfl⟩); assumption)

lemma publishTwitterPost_cases (args : Option Json) (key : Option String)
    (idv : Option Json) (out : BackendOutcome) :
    localErrorCase (publishTwitterPost args key idv out) idv
    ∨ toolErrorCase (publishTwitterPost args key idv out) idv
    ∨ successCaseWith successTruthy (publishTwitterPost args key idv out) idv out := by
  unfold publishTwitterPost
  dsimp only
  repeat' split
  all_goals first
    | exact Or.inl ⟨_, _, rfl, Or.inl rfl⟩
    | exact Or.inl ⟨_, _, rfl, Or.inr rfl⟩
    | exact Or.inr (Or.inl ⟨_, rfl⟩)
    | (refine Or.inr (Or.inr ⟨_, _, rfl, ?_, rfl⟩); assumption)

lemma analyzeLinkedinChat_cases (args : Option Json) (key : Option String)
    (idv : Option Json) (out : BackendOutcome) :
    localErrorCase (analyzeLinkedinChat args key idv out) idv
    ∨ toolErrorCase (analyzeLinkedinChat args key idv out) idv
    ∨ successCaseWith replyTruthy (analyzeLinkedinChat args key idv out) idv out := by
  unfold analyzeLinkedinChat
  dsimp only
  repeat' split
  all_goals first
    | exact Or.inl ⟨_, _, rfl, Or.inl rfl⟩
    | exact Or.inl ⟨_, _, rfl, Or.inr rfl⟩
    | exact Or.inr (Or.inl ⟨_, rfl⟩)
    | (refine Or.inr (Or.inr ⟨_, _, rfl, ?_, rfl⟩); assumption)

lemma generateLinkedinPost_cases (args : Option Json) (key : Option String)
    (idv : Option Json) (out : BackendOutcome) :
    localErrorCase (generateLinkedinPost args key idv out) idv
    ∨ toolErrorCase (generateLinkedinPost args key idv out) idv
    ∨ successCaseWith successTruthy (generateLinkedinPost args key idv out) idv out := by
  unfold generateLinkedinPost
  dsimp only
  repeat' split
  all_goals first
    | exact Or.inl ⟨_, _, rfl, Or.inl rfl⟩
    | exact Or.inl ⟨_, _, rfl, Or.inr rfl⟩
    | exact Or.inr (Or.inl ⟨_, rfl⟩)
    | (refine Or.inr (Or.inr ⟨_, _, rfl, ?_, rfl⟩); assumption)

lemma getLinkedinPosts_cases (args : Option Json) (key : Option String)
    (idv : Option Json) (out : BackendOutcome) :
    localErrorCase (getLinkedinPosts args key idv out) idv
    ∨ toolErrorCase (getLinkedinPosts args key idv out) idv
    ∨ successCaseWith successTruthy (getLinkedinPosts args key idv out) idv out := by
  unfold getLinkedinPosts
  dsimp only
  repeat' split
  all_goals first
    | exact Or.inl ⟨_, _, rfl, Or.inl rfl⟩
    | exact Or.inl ⟨_, _, rfl, Or.inr rfl⟩
    | exact Or.inr (Or.inl ⟨_, rfl⟩)
    | (refine Or.inr (Or.inr ⟨_, _, rfl, ?_, rfl⟩); assumption)

lemma getLinkedinProfile_cases (key : Option String)
    (idv : Option Json) (out : BackendOutcome) :
    localErrorCase (getLinkedinProfile key idv out) idv
    ∨ toolErrorCase (getLinkedinProfile key idv out) idv
    ∨ successCaseWith successTruthy (getLinkedinProfile key idv out) idv out := by
  unfold getLinkedinProfile
  dsimp only
  repeat' split
  all_goals first
    | exact Or.inl ⟨_, _, rfl, Or.inl rfl⟩
    | exact Or.inl ⟨_, _, rfl, Or.inr rfl⟩
    | exact Or.inr (Or.inl ⟨_, rfl⟩)
    | (refine Or.inr (Or.inr ⟨_, _, rfl, ?_, rfl⟩); assumption)

lemma setLinkedinUrl_cases (args : Option Json) (key : Option String)
    (idv : Option Json) (out : BackendOutcome) :
    localErrorCase (setLinkedinUrl args key idv out) idv
    ∨ toolErrorCase (setLinkedinUrl args key idv out) idv
    ∨ successCaseWith successTruthy (setLinkedinUrl args key idv out) idv out := by
  unfold setLinkedinUrl
  dsimp only
  repeat' split
  all_goals first
    | exact Or.inl ⟨_, _, rfl, Or.inl rfl⟩
    | exact Or.inl ⟨_, _, rfl, Or.inr rfl⟩
    | exact Or.inr (Or.inl ⟨_, rfl⟩)
    | (refine Or.inr (Or.inr ⟨_, _, rfl, ?_, rfl⟩); assumption)

lemma refreshLinkedinProfile_cases (key : Option String)
    (idv : Option Json) (out : BackendOutcome) :
    localErrorCase (refreshLinkedinProfile key idv out) idv
    ∨ toolErrorCase (refreshLinkedinProfile key idv out) idv
    ∨ successCaseWith successTruthy (refreshLinkedinProfile key idv out) idv out := by
  unfold refreshLinkedinProfile
  dsimp only
  repeat' split
  all_goals first
    | exact Or.inl ⟨_, _, rfl, Or.inl rfl⟩
    | exact Or.inl ⟨_, _, rfl, Or.inr rfl⟩
    | exact Or.inr (Or.inl ⟨_, rfl⟩)
    | (refine Or.inr (Or.inr ⟨_, _, rfl, ?_, rfl⟩); assumption)

lemma refreshLinkedinPosts_cases (key : Option String)
    (idv : Option Json) (out : BackendOutcome) :
    localErrorCase (refreshLinkedinPosts key idv out) idv
    ∨ toolErrorCase (refreshLinkedinPosts key idv out) idv
    ∨ successCaseWith successTruthy (refreshLinkedinPosts key idv out) idv out := by
  unfold refreshLinkedinPosts
  dsimp only
  repeat' split
  all_goals first
    | exact Or.inl ⟨_, _, rfl, Or.inl rfl⟩
    | exact Or.inl ⟨_, _, rfl, Or.inr rfl⟩
    | exact Or.inr (Or.inl ⟨_, rfl⟩)
    | (refine Or.inr (Or.inr ⟨_, _, rfl, ?_, rfl⟩); assumption)

lemma c1_of_cases {r : HandleResult} {idv : Option Json} {out : BackendOutcome}
    {ind : Option Json → Bool}
    (hc : localErrorCase r idv ∨ toolErrorCase r idv ∨ successCaseWith ind r idv out) :
    (r.backendCalled = true → ∃ j, r.responses = [resultResp idv j])
    ∧ (r.backendCalled = true → backendFailureW ind out →
        ∃ t, r.responses = [toolErrorText idv t])
    ∧ (∀ resp ∈ r.responses, (∃ e, resp.body = RespBody.error e) →
        r.backendCalled = false ∧
          ∃ e, resp.body = RespBody.error e ∧ (e.code = -32001 ∨ e.code = -32602)) := by
  rcases hc with ⟨c, m, heq, hcm⟩ | ⟨t, heq⟩ | ⟨data, items, hout, hind, heq⟩
  · subst heq
    refine ⟨fun hb => Bool.noConfusion hb, fun hb _ => Bool.noConfusion hb, ?_⟩
    intro resp hmem he
    rw [List.mem_singleton] at hmem
    subst hmem
    exact ⟨rfl, ⟨{ code := c, message := m }, rfl, hcm⟩⟩
  · subst heq
    refine ⟨fun _ => ⟨_, rfl⟩, fun _ _ => ⟨t, rfl⟩, ?_⟩
    intro resp hmem he
    rw [List.mem_singleton] at hmem
    subst hmem
    rcases he with ⟨e, he⟩
    exact RespBody.noConfusion he
  · subst hout
    subst heq
    refine ⟨fun _ => ⟨_, rfl⟩, fun _ hf => ?_, ?_⟩
    · have hf' : ind data = false := hf
      rw [hind] at hf'
      exact Bool.noConfusion hf'
    · intro resp hmem he
      rw [List.mem_singleton] at hmem
      subst hmem
      rcases he with ⟨e, he⟩
      exact RespBody.noConfusion he

lemma bool_eq_false {b : Bool} (h : ¬ b = true) : b = false := by
  cases b
  · rfl
  · exact absurd rfl h

lemma bool_not_true {b : Bool} (h : (!b) = true) : b = false := by
  cases b
  · rfl
  · exact Bool.noConfusion h

lemma bool_not_false {b : Bool} (h : (!b) = false) : b = true := by
  cases b
  · exact Bool.noConfusion h
  · rfl

lemma toolsCall_cases (params : Option Json) (key : Option String)
    (idv : Option Json) (out : BackendOutcome) :
    ((truthy params && isObjectTypeV params) = false ∧
      toolsCall params key idv out =
        { responses := [errResp idv (-32602) "Invalid params for tools/call"],
          backendCalled := false })
    ∨ (strictEqStr (getProp params "name") "publish_linkedin_post" = true ∧
        toolsCall params key idv out = publishLinkedinPost (getProp params "arguments") key idv out)
    ∨ (strictEqStr (getProp params "name") "schedule_linkedin_post" = true ∧
        toolsCall params key idv out = scheduleLinkedinPost (getProp params "arguments") key idv out)
    ∨ (strictEqStr (getProp params "name") "publish_twitter_post" = true ∧
        toolsCall params key idv out = publishTwitterPost (getProp params "arguments") key idv out)
    ∨ (strictEqStr (getProp params "name") "analyze_linkedin_chat" = true ∧
        toolsCall params key idv out = analyzeLinkedinChat (getProp params "arguments") key idv out)
    ∨ (strictEqStr (getProp params "name") "generate_linkedin_post" = true ∧
        toolsCall params key idv out = generateLinkedinPost (getProp params "arguments") key idv out)
    ∨ (strictEqStr (getProp params "name") "get_linkedin_posts" = true ∧
        toolsCall params key idv out = getLinkedinPosts (getProp params "arguments") key idv out)
    ∨ (strictEqStr (getProp params "name") "get_linkedin_profile" = true ∧
        toolsCall params key idv out = getLinkedinProfile key idv out)
    ∨ (strictEqStr (getProp params "name") "set_linkedin_url" = true ∧
        toolsCall params key idv out = setLinkedinUrl (getProp params "arguments") key idv out)
    ∨ (strictEqStr (getProp params "name") "refresh_linkedin_profile" = true ∧
        toolsCall params key idv out = refreshLinkedinProfile key idv out)
    ∨ (strictEqStr (getProp params "name") "refresh_linkedin_posts" = true ∧
        toolsCall params key idv out = refreshLinkedinPosts key idv out)
    ∨ ((truthy params && isObjectTypeV params) = true ∧
        knownToolName (getProp params "name") = false ∧
        toolsCall params key idv out =
          { responses := [errResp idv (-32601) ("Tool not found: " ++ jsToStringV (getProp params "name"))],
            backendCalled := false }) := by
  by_cases h0 : (!(truthy params && isObjectTypeV params)) = true
  · exact Or.inl ⟨bool_not_true h0, by rw [toolsCall, if_pos h0]⟩
  · have hobj : (truthy params && isObjectTypeV params) = true :=
      bool_not_false (bool_eq_false h0)
    by_cases h1 : strictEqStr (getProp params "name") "publish_linkedin_post" = true
    · exact Or.inr (Or.inl ⟨h1, by rw [toolsCall, if_neg h0]; dsimp only; rw [if_pos h1]⟩)
    by_cases h2 : strictEqStr (getProp params "name") "schedule_linkedin_post" = true
    · exact Or.inr (Or.inr (Or.inl ⟨h2, by
        rw [toolsCall, if_neg h0]; dsimp only; rw [if_neg h1, if_pos h2]⟩))
    by_cases h3 : strictEqStr (getProp params "name") "publish_twitter_post" = true
    · exact Or.inr (Or.inr (Or.inr (Or.inl ⟨h3, by
        rw [toolsCall, if_neg h0]; dsimp only; rw [if_neg h1, if_neg h2, if_pos h3]⟩)))
    by_cases h4 : strictEqStr (getProp params "name") "analyze_linkedin_chat" = true
    · exact Or.inr (Or.inr (Or.inr (Or.inr (Or.inl ⟨h4, by
        rw [toolsCall, if_neg h0]; dsimp only; rw [if_neg h1, if_neg h2, if_neg h3, if_pos h4]⟩))))
    by_cases h5 : strictEqStr (getProp params "name") "generate_linkedin_post" = true
    · exact Or.inr (Or.inr (Or.inr (Or.inr (Or.inr (Or.inl ⟨h5, by
        rw [toolsCall, if_neg h0]; dsimp only
        rw [if_neg h1, if_neg h2, if_neg h3, if_neg h4, if_pos h5]⟩)))))
    by_cases h6 : strictEqStr (getProp params "name") "get_linkedin_posts" = true
    · exact Or.inr (Or.inr (Or.inr (Or.inr (Or.inr (Or.inr (Or.inl ⟨h6, by
        rw [toolsCall, if_neg h0]; dsimp only
        rw [if_neg h1, if_neg h2, if_neg h3, if_neg h4, if_neg h5, if_pos h6]⟩))))))
    by_cases h7 : strictEqStr (getProp params "name") "get_linkedin_profile" = true
    · exact Or.inr (Or.inr (Or.inr (Or.inr (Or.inr (Or.inr (Or.inr (Or.inl ⟨h7, by
        rw [toolsCall, if_neg h0]; dsimp only
        rw [if_neg h1, if_neg h2, if_neg h3, if_neg h4, if_neg h5, if_neg h6, if_pos h7]⟩)))))))
    by_cases h8 : strictEqStr (getProp params "name") "set_linkedin_url" = true
    · exact Or.inr (Or.inr (Or.inr (Or.inr (Or.inr (Or.inr (Or.inr (Or.inr (Or.inl ⟨h8, by
        rw [toolsCall, if_neg h0]; dsimp only
        rw [if_neg h1, if_neg h2, if_neg h3, if_neg h4, if_neg h5, if_neg h6, if_neg h7,
          if_pos h8]⟩))))))))
    by_cases h9 : strictEqStr (getProp params "name") "refresh_linkedin_profile" = true
    · exact Or.inr (Or.inr (Or.inr (Or.inr (Or.inr (Or.inr (Or.inr (Or.inr (Or.inr (Or.inl ⟨h9, by
        rw [toolsCall, if_neg h0]; dsimp only
        rw [if_neg h1, if_neg h2, if_neg h3, if_neg h4, if_neg h5, if_neg h6, if_neg h7,
          if_neg h8, if_pos h9]⟩)))))))))
    by_cases h10 : strictEqStr (getProp params "name") "refresh_linkedin_posts" = true
    · exact Or.inr (Or.inr (Or.inr (Or.inr (Or.inr (Or.inr (Or.inr (Or.inr (Or.inr (Or.inr
        (Or.inl ⟨h10, by
          rw [toolsCall, if_neg h0]; dsimp only
          rw [if_neg h1, if_neg h2, if_neg h3, if_neg h4, if_neg h5, if_neg h6, if_neg h7,
            if_neg h8, if_neg h9, if_pos h10]⟩))))))))))
    · refine Or.inr (Or.inr (Or.inr (Or.inr (Or.inr (Or.inr (Or.inr (Or.inr (Or.inr (Or.inr
        (Or.inr ⟨hobj, ?_, by
          rw [toolsCall, if_neg h0]; dsimp only
          rw [if_neg h1, if_neg h2, if_neg h3, if_neg h4, if_neg h5, if_neg h6, if_neg h7,
            if_neg h8, if_neg h9, if_neg h10]⟩))))))))))
      simp [knownToolName, bool_eq_false h1, bool_eq_false h2, bool_eq_false h3,
        bool_eq_false h4, bool_eq_false h5, bool_eq_false h6, bool_eq_false h7,
        bool_eq_false h8, bool_eq_false h9, bool_eq_false h10]

lemma toolsCall_single (params : Option Json) (key : Option String)
    (idv : Option Json) (out : BackendOutcome) :
    ∃ b, (toolsCall params key idv out).responses = [{ id := idv, body := b }] := by
  have single : ∀ {r : HandleResult} {ind : Option Json → Bool},
      (localErrorCase r idv ∨ toolErrorCase r idv ∨ successCaseWith ind r idv out) →
      ∃ b, r.responses = [{ id := idv, body := b }] := by
    rintro r ind (⟨c, m, heq, _⟩ | ⟨t, heq⟩ | ⟨data, items, _, _, heq⟩) <;> subst heq <;>
      exact ⟨_, rfl⟩
  rcases toolsCall_cases params key idv out with ⟨_, e0⟩ | ⟨_, e1⟩ | ⟨_, e2⟩ | ⟨_, e3⟩ |
    ⟨_, e4⟩ | ⟨_, e5⟩ | ⟨_, e6⟩ | ⟨_, e7⟩ | ⟨_, e8⟩ | ⟨_, e9⟩ | ⟨_, e10⟩ | ⟨_, _, e11⟩
  · exact ⟨_, by rw [e0]; exact rfl⟩
  · rw [e1]; exact single (publishLinkedinPost_cases _ _ _ _)
  · rw [e2]; exact single (scheduleLinkedinPost_cases _ _ _ _)
  · rw [e3]; exact single (publishTwitterPost_cases _ _ _ _)
  · rw [e4]; exact single (analyzeLinkedinChat_cases _ _ _ _)
  · rw [e5]; exact single (generateLinkedinPost_cases _ _ _ _)
  · rw [e6]; exact single (getLinkedinPosts_cases _ _ _ _)
  · rw [e7]; exact single (getLinkedinProfile_cases _ _ _)
  · rw [e8]; exact single (setLinkedinUrl_cases _ _ _ _)
  · rw [e9]; exact single (refreshLinkedinProfile_cases _ _ _)
  · rw [e10]; exact single (refreshLinkedinPosts_cases _ _ _)
  · exact ⟨_, by rw [e11]; exact rfl⟩

lemma handleRequest_shape (request : Json) (env : Env) (out : BackendOutcome) :
    (∃ b, (handleRequest request env out).responses =
        [{ id := some ((getProp (some request) "id").getD Json.null), body := b }])
    ∨ ((handleRequest request env out).responses = [] ∧
        (isNullJson ((getProp (some request) "id").getD Json.null) = true ∨
          strictEqStr (getProp (some request) "method") "notifications/initialized" = true))
    ∨ (handleRequest request env out =
        toolsCall (getProp (some request) "params") env.apiKey (getProp (some request) "id") out)
    ∨ (∃ b, (handleRequest request env out).responses =
        [{ id := getProp (some request) "id", body := b }]) := by
  by_cases g1 : (malformedRequest request &&
      !(isNullJson ((getProp (some request) "id").getD Json.null)) &&
      !(strictEqStr (getProp (some request) "method") "initialize")) = true
  · exact Or.inl ⟨_, by rw [handleRequest]; dsimp only; rw [if_pos g1]; exact rfl⟩
  by_cases g2 : (malformedRequest request &&
      isNullJson ((getProp (some request) "id").getD Json.null) &&
      !(strictEqStr (getProp (some request) "method") "initialize")) = true
  · refine Or.inr (Or.inl ⟨?_, Or.inl (by simp only [Bool.and_eq_true] at g2; exact g2.1.2)⟩)
    rw [handleRequest]; dsimp only; rw [if_neg g1, if_pos g2]
  by_cases m1 : strictEqStr (getProp (some request) "method") "initialize" = true
  · exact Or.inr (Or.inr (Or.inr ⟨_, by
      rw [handleRequest]; dsimp only; rw [if_neg g1, if_neg g2, if_pos m1]; exact rfl⟩))
  by_cases m2 : strictEqStr (getProp (some request) "method") "tools/call" = true
  · refine Or.inr (Or.inr (Or.inl ?_))
    rw [handleRequest]; dsimp only; rw [if_neg g1, if_neg g2, if_neg m1, if_pos m2]
  by_cases m3 : strictEqStr (getProp (some request) "method") "tools/list" = true
  · exact Or.inr (Or.inr (Or.inr ⟨_, by
      rw [handleRequest]; dsimp only; rw [if_neg g1, if_neg g2, if_neg m1, if_neg m2, if_pos m3]; exact rfl⟩))
  by_cases m4 : (strictEqStr (getProp (some request) "method") "resources/list" ||
      strictEqStr (getProp (some request) "method") "prompts/list") = true
  · exact Or.inr (Or.inr (Or.inr ⟨_, by
      rw [handleRequest]; dsimp only
      rw [if_neg g1, if_neg g2, if_neg m1, if_neg m2, if_neg m3, if_pos m4]; exact rfl⟩))
  by_cases m5 : strictEqStr (getProp (some request) "method") "notifications/initialized" = true
  · refine Or.inr (Or.inl ⟨?_, Or.inr m5⟩)
    rw [handleRequest]; dsimp only
    rw [if_neg g1, if_neg g2, if_neg m1, if_neg m2, if_neg m3, if_neg m4, if_pos m5]
  · exact Or.inr (Or.inr (Or.inr ⟨_, by
      rw [handleRequest]; dsimp only
      rw [if_neg g1, if_neg g2, if_neg m1, if_neg m2, if_neg m3, if_neg m4, if_neg m5]; exact rfl⟩))

lemma apiKeyOk_some {s : String} (h : s ≠ "") : apiKeyOk (some s) = true := by
  simp [apiKeyOk]
  exact h

lemma not_bang_of_true {b : Bool} (h : b = true) : ¬ ((!b) = true) := by
  rw [h]
  exact fun hf => Bool.noConfusion hf

lemma requiredStringMissing_false {v : Option Json} (h : requiredStringMissing v = false) :
    ∃ s, v = some (Json.str s) ∧ jsTrim s ≠ "" := by
  cases v with
  | none => exact Bool.noConfusion h
  | some j =>
    cases j with
    | str s =>
      refine ⟨s, rfl, ?_⟩
      have h' : (jsTrim s == "") = false := h
      simpa using h'
    | null => exact Bool.noConfusion h
    | bool b => exact Bool.noConfusion h
    | num n => exact Bool.noConfusion h
    | arr xs => exact Bool.noConfusion h
    | obj fs => exact Bool.noConfusion h

lemma scheduleLinkedinPost_run (args : Option Json) (key : Option String)
    (idv : Option Json) (out : BackendOutcome) :
    ((scheduleLinkedinPost args key idv out).backendCalled = false ∧
      ((apiKeyOk key = false ∧ (scheduleLinkedinPost args key idv out).responses =
          [errResp idv (-32001) "Server Configuration Error: API Key not set."])
        ∨ ∃ m, (scheduleLinkedinPost args key idv out).responses = [errResp idv (-32602) m]))
    ∨ ((scheduleLinkedinPost args key idv out).backendCalled = true ∧
        apiKeyOk key = true ∧
        requiredStringMissing (getProp args "post_text") = false ∧
        requiredStringMissing (getProp args "scheduled_date") = false ∧
        scheduledDateTest (jsToStringV (getProp args "scheduled_date")) = true ∧
        mediaArgInvalid (getProp args "media") = false) := by
  by_cases c1 : (!(apiKeyOk key)) = true
  · have heq : scheduleLinkedinPost args key idv out =
        { responses := [errResp idv (-32001) "Server Configuration Error: API Key not set."],
          backendCalled := false } := by
      rw [scheduleLinkedinPost.eq_def]; dsimp only; rw [if_pos c1]
    exact Or.inl ⟨by rw [heq], Or.inl ⟨bool_not_true c1, by rw [heq]⟩⟩
  by_cases c2 : requiredStringMissing (getProp args "post_text") = true
  · have heq : scheduleLinkedinPost args key idv out =
        { responses := [errResp idv (-32602) "Invalid arguments: 'post_text' (string) required."],
          backendCalled := false } := by
      rw [scheduleLinkedinPost.eq_def]; dsimp only; rw [if_neg c1, if_pos c2]
    exact Or.inl ⟨by rw [heq], Or.inr ⟨_, by rw [heq]⟩⟩
  by_cases c3 : requiredStringMissing (getProp args "scheduled_date") = true
  · have heq : scheduleLinkedinPost args key idv out =
        { responses := [errResp idv (-32602) "Invalid arguments: 'scheduled_date' (ISO 8601 string) required."],
          backendCalled := false } := by
      rw [scheduleLinkedinPost.eq_def]; dsimp only; rw [if_neg c1, if_neg c2, if_pos c3]
    exact Or.inl ⟨by rw [heq], Or.inr ⟨_, by rw [heq]⟩⟩
  by_cases c4 : (!(scheduledDateTest (jsToStringV (getProp args "scheduled_date")))) = true
  · have heq : scheduleLinkedinPost args key idv out =
        { responses := [errResp idv (-32602) "Invalid arguments: 'scheduled_date' must be a valid ISO 8601 string (e.g., 2025-12-31T10:00:00Z)."],
          backendCalled := false } := by
      rw [scheduleLinkedinPost.eq_def]; dsimp only; rw [if_neg c1, if_neg c2, if_neg c3, if_pos c4]
    exact Or.inl ⟨by rw [heq], Or.inr ⟨_, by rw [heq]⟩⟩
  by_cases c5 : mediaArgInvalid (getProp args "media") = true
  · have heq : scheduleLinkedinPost args key idv out =
        { responses := [errResp idv (-32602) "Invalid arguments: 'media' must be an array of objects, each with 'file_url' and 'filename' strings."],
          backendCalled := false } := by
      rw [scheduleLinkedinPost.eq_def]; dsimp only
      rw [if_neg c1, if_neg c2, if_neg c3, if_neg c4, if_pos c5]
    exact Or.inl ⟨by rw [heq], Or.inr ⟨_, by rw [heq]⟩⟩
  · refine Or.inr ⟨?_, bool_not_false (bool_eq_false c1), bool_eq_false c2, bool_eq_false c3,
      bool_not_false (bool_eq_false c4), bool_eq_false c5⟩
    rw [scheduleLinkedinPost.eq_def]; dsimp only
    rw [if_neg c1, if_neg c2, if_neg c3, if_neg c4, if_neg c5]
    cases out <;> dsimp only <;> (repeat' split) <;> rfl

lemma getLinkedinPosts_run (args : Option Json) (key : Option String)
    (idv : Option Json) (out : BackendOutcome) :
    ((getLinkedinPosts args key idv out).backendCalled = false ∧
      ((apiKeyOk key = false ∧ (getLinkedinPosts args key idv out).responses =
          [errResp idv (-32001) "Server Configuration Error: API Key not set."])
        ∨ (limitOutOfRange (jsOr (getProp args "limit") (Json.num 5)) = true ∧
            (getLinkedinPosts args key idv out).responses =
              [errResp idv (-32602) "Invalid arguments: 'limit' must be a number between 1 and 20."])))
    ∨ ((getLinkedinPosts args key idv out).backendCalled = true ∧
        apiKeyOk key = true ∧
        limitOutOfRange (jsOr (getProp args "limit") (Json.num 5)) = false) := by
  by_cases c1 : (!(apiKeyOk key)) = true
  · have heq : getLinkedinPosts args key idv out =
        { responses := [errResp idv (-32001) "Server Configuration Error: API Key not set."],
          backendCalled := false } := by
      rw [getLinkedinPosts.eq_def]; dsimp only; rw [if_pos c1]
    exact Or.inl ⟨by rw [heq], Or.inl ⟨bool_not_true c1, by rw [heq]⟩⟩
  by_cases c2 : limitOutOfRange (jsOr (getProp args "limit") (Json.num 5)) = true
  · have heq : getLinkedinPosts args key idv out =
        { responses := [errResp idv (-32602) "Invalid arguments: 'limit' must be a number between 1 and 20."],
          backendCalled := false } := by
      rw [getLinkedinPosts.eq_def]; dsimp only; rw [if_neg c1, if_pos c2]
    exact Or.inl ⟨by rw [heq], Or.inr ⟨c2, by rw [heq]⟩⟩
  · refine Or.inr ⟨?_, bool_not_false (bool_eq_false c1), bool_eq_false c2⟩
    rw [getLinkedinPosts.eq_def]; dsimp only
    rw [if_neg c1, if_neg c2]
    cases out <;> dsimp only <;> (repeat' split) <;> rfl

lemma jsOr_falsy {a : Option Json} {b : Json} (h : truthy a = false) : jsOr a b = b := by
  cases a with
  | none => rfl
  | some v =>
    show (if truthy (some v) = true then v else b) = b
    exact if_neg (fun hh => Bool.noConfusion (h.symm.trans hh))

lemma jsOr_truthy {a : Json} {b : Json} (h : truthy (some a) = true) : jsOr (some a) b = a := by
  show (if truthy (some a) = true then a else b) = a
  exact if_pos h

/-- C1: for every `tools/call` of a known tool, whenever the handler
reaches the backend (credential present, arguments locally valid), every
backend outcome it can observe is answered — with exactly one successful
JSON-RPC response; every failure outcome (2xx body lacking the tool's
success indicator, non-2xx status, or no response received) is answered
with a `result` envelope carrying `isError: true` and one explanatory
text item; and JSON-RPC error envelopes arise only before the backend
call, with code `-32001` (missing credential) or `-32602` (invalid
arguments). -/
theorem backend_outcomes_surface_as_isError (params : Option Json) (key : Option String)
    (idv : Option Json) (out : BackendOutcome)
    (hknown : knownToolName (getProp params "name") = true) :
    ((toolsCall params key idv out).backendCalled = true →
      ∃ j, (toolsCall params key idv out).responses = [resultResp idv j])
    ∧ ((toolsCall params key idv out).backendCalled = true →
      backendFailureOutcome (getProp params "name") out →
      ∃ t, (toolsCall params key idv out).responses = [toolErrorText idv t])
    ∧ (∀ resp ∈ (toolsCall params key idv out).responses,
      (∃ e, resp.body = RespBody.error e) →
      (toolsCall params key idv out).backendCalled = false ∧
        ∃ e, resp.body = RespBody.error e ∧ (e.code = -32001 ∨ e.code = -32602)) := by
  rcases toolsCall_cases params key idv out with ⟨hbad, _⟩ | ⟨n1, e1⟩ | ⟨n2, e2⟩ | ⟨n3, e3⟩ |
    ⟨n4, e4⟩ | ⟨n5, e5⟩ | ⟨n6, e6⟩ | ⟨n7, e7⟩ | ⟨n8, e8⟩ | ⟨n9, e9⟩ | ⟨n10, e10⟩ | ⟨_, hk, _⟩
  · rw [knownTool_params_object hknown] at hbad
    exact Bool.noConfusion hbad
  · rw [e1, strictEqStr_true.mp n1]
    exact c1_of_cases (publishLinkedinPost_cases _ _ _ _)
  · rw [e2, strictEqStr_true.mp n2]
    exact c1_of_cases (scheduleLinkedinPost_cases _ _ _ _)
  · rw [e3, strictEqStr_true.mp n3]
    exact c1_of_cases (publishTwitterPost_cases _ _ _ _)
  · rw [e4, strictEqStr_true.mp n4]
    exact c1_of_cases (analyzeLinkedinChat_cases _ _ _ _)
  · rw [e5, strictEqStr_true.mp n5]
    exact c1_of_cases (generateLinkedinPost_cases _ _ _ _)
  · rw [e6, strictEqStr_true.mp n6]
    exact c1_of_cases (getLinkedinPosts_cases _ _ _ _)
  · rw [e7, strictEqStr_true.mp n7]
    exact c1_of_cases (getLinkedinProfile_cases _ _ _)
  · rw [e8, strictEqStr_true.mp n8]
    exact c1_of_cases (setLinkedinUrl_cases _ _ _ _)
  · rw [e9, strictEqStr_true.mp n9]
    exact c1_of_cases (refreshLinkedinProfile_cases _ _ _)
  · rw [e10, strictEqStr_true.mp n10]
    exact c1_of_cases (refreshLinkedinPosts_cases _ _ _)
  · rw [hk] at hknown
    exact Bool.noConfusion hknown

/-- Witness for C1: a valid `publish_linkedin_post` call whose backend
call receives no response is answered with a single `isError: true`
envelope. -/
theorem backend_outcomes_surface_as_isError_witness :
    ∃ t, (toolsCall
        (some (Json.obj [("name", Json.str "publish_linkedin_post"),
                         ("arguments", Json.obj [("post_text", Json.str "hello")])]))
        (some "k") (some (Json.num 1)) BackendOutcome.noResponse).responses =
      [toolErrorText (some (Json.num 1)) t] := by
  have h := backend_outcomes_surface_as_isError
    (some (Json.obj [("name", Json.str "publish_linkedin_post"),
                     ("arguments", Json.obj [("post_text", Json.str "hello")])]))
    (some "k") (some (Json.num 1)) BackendOutcome.noResponse rfl
  exact h.2.1 (by rfl) trivial

/-- C2 counterexample: the request
`{jsonrpc: "2.0", method: "notifications/initialized", id: 7}` carries a
non-null id, yet `handleRequest` emits no response for it. -/
theorem notification_with_id_counterexample :
    getProp (some notificationWithIdRequest) "id" = some (Json.num 7) ∧
    Json.num 7 ≠ Json.null ∧
    (handleRequest notificationWithIdRequest { apiKey := some "k" }
      BackendOutcome.noResponse).responses = [] :=
  ⟨rfl, fun h => Json.noConfusion h, rfl⟩

/-- C2 (amended): every decoded request carrying a non-null id whose
method is not `notifications/initialized` gets exactly one response, and
that response carries exactly the originating id. -/
theorem unique_response_per_nonnull_id (request : Json) (env : Env) (out : BackendOutcome)
    (j : Json) (hid : getProp (some request) "id" = some j) (hnn : j ≠ Json.null)
    (hmeth : strictEqStr (getProp (some request) "method") "notifications/initialized" = false) :
    ∃ b, (handleRequest request env out).responses = [{ id := some j, body := b }] := by
  rcases handleRequest_shape request env out with ⟨b, h⟩ | ⟨h, hcond⟩ | h | ⟨b, h⟩
  · rw [hid] at h
    exact ⟨b, h⟩
  · rcases hcond with hnull | hm
    · rw [hid] at hnull
      have hj : isNullJson j = false := isNullJson_false_of_ne hnn
      have hnull' : isNullJson j = true := hnull
      rw [hj] at hnull'
      exact Bool.noConfusion hnull'
    · rw [hmeth] at hm
      exact Bool.noConfusion hm
  · rw [h, hid]
    exact toolsCall_single _ _ _ _
  · rw [hid] at h
    exact ⟨b, h⟩

/-- Witness for the amended C2: a `tools/list` request with id 1 gets
exactly one response carrying id 1. -/
theorem unique_response_per_nonnull_id_witness :
    ∃ b, (handleRequest
        (Json.obj [("jsonrpc", Json.str "2.0"), ("method", Json.str "tools/list"),
                   ("id", Json.num 1)])
        { apiKey := none } BackendOutcome.noResponse).responses =
      [{ id := some (Json.num 1), body := b }] :=
  unique_response_per_nonnull_id _ _ _ _ rfl (fun h => Json.noConfusion h) rfl

/-- C3: an unparsable line yields exactly one `-32700` response with JSON
`null` as id, and the surrounding lines of the trace are processed
exactly as they would be without it. -/
theorem parse_error_line_confined (env : Env) (out : BackendOutcome)
    (pre post : List (Option Json × BackendOutcome)) :
    serverTrace env (pre ++ (none, out) :: post) =
      serverTrace env pre ++ parseErrorResponse :: serverTrace env post ∧
    parseErrorResponse = errResp (some Json.null) (-32700) "Parse error" := by
  refine ⟨?_, rfl⟩
  induction pre with
  | nil => rfl
  | cons hd tl ih =>
    obtain ⟨p, o⟩ := hd
    show processLine p env o ++ serverTrace env (tl ++ (none, out) :: post) =
      (processLine p env o ++ serverTrace env tl) ++ parseErrorResponse :: serverTrace env post
    rw [ih, List.append_assoc]

/-- C4: the well-formed id-less request `{jsonrpc: "2.0", method: "tools/list"}`
— a notification per the spec — is nevertheless answered: the structure
guard's `!request.id === undefined` disjunct is constantly false, so the
notification check is never reached and the `tools/list` response (with
the id key absent) is emitted. -/
theorem idless_request_still_answered :
    getProp (some idlessToolsListRequest) "id" = none ∧
    (handleRequest idlessToolsListRequest { apiKey := none }
      BackendOutcome.noResponse).responses = [resultResp none toolsListResult] :=
  ⟨rfl, rfl⟩

/-- C5 counterexample: `tools/call` params `{name: "no_such_tool"}` lack
an `arguments` object, yet the emitted error is `-32601` (Tool not
found), not the `-32602` the claim requires. -/
theorem unknown_tool_params_counterexample :
    getProp (some unknownToolParams) "arguments" = none ∧
    (toolsCall (some unknownToolParams) (some "k") (some (Json.num 3))
      BackendOutcome.noResponse).responses =
      [errResp (some (Json.num 3)) (-32601) "Tool not found: no_such_tool"] :=
  ⟨rfl, rfl⟩

/-- C5 (amended): `tools/call` emits `-32602` exactly when `params` is
falsy or not of JS object type; for object-typed params the dispatch goes
by `params.name` alone — with no check that `name` is a string or that
`arguments` is an object — and any name not among the ten registered
tools draws `-32601`. -/
theorem tools_call_params_dispatch (params : Option Json) (key : Option String)
    (idv : Option Json) (out : BackendOutcome) :
    ((truthy params && isObjectTypeV params) = false →
      toolsCall params key idv out =
        { responses := [errResp idv (-32602) "Invalid params for tools/call"],
          backendCalled := false })
    ∧ ((truthy params && isObjectTypeV params) = true →
      knownToolName (getProp params "name") = false →
      toolsCall params key idv out =
        { responses := [errResp idv (-32601) ("Tool not found: " ++ jsToStringV (getProp params "name"))],
          backendCalled := false }) := by
  constructor
  · intro hbad
    rw [toolsCall, if_pos (by rw [hbad]; rfl)]
  · intro hok hk
    rcases toolsCall_cases params key idv out with ⟨hbad, _⟩ | ⟨n1, _⟩ | ⟨n2, _⟩ | ⟨n3, _⟩ |
      ⟨n4, _⟩ | ⟨n5, _⟩ | ⟨n6, _⟩ | ⟨n7, _⟩ | ⟨n8, _⟩ | ⟨n9, _⟩ | ⟨n10, _⟩ | ⟨_, _, heq⟩
    · rw [hok] at hbad
      exact Bool.noConfusion hbad
    · have hkt : knownToolName (getProp params "name") = true := by simp [knownToolName, n1]
      rw [hk] at hkt; exact Bool.noConfusion hkt
    · have hkt : knownToolName (getProp params "name") = true := by simp [knownToolName, n2]
      rw [hk] at hkt; exact Bool.noConfusion hkt
    · have hkt : knownToolName (getProp params "name") = true := by simp [knownToolName, n3]
      rw [hk] at hkt; exact Bool.noConfusion hkt
    · have hkt : knownToolName (getProp params "name") = true := by simp [knownToolName, n4]
      rw [hk] at hkt; exact Bool.noConfusion hkt
    · have hkt : knownToolName (getProp params "name") = true := by simp [knownToolName, n5]
      rw [hk] at hkt; exact Bool.noConfusion hkt
    · have hkt : knownToolName (getProp params "name") = true := by simp [knownToolName, n6]
      rw [hk] at hkt; exact Bool.noConfusion hkt
    · have hkt : knownToolName (getProp params "name") = true := by simp [knownToolName, n7]
      rw [hk] at hkt; exact Bool.noConfusion hkt
    · have hkt : knownToolName (getProp params "name") = true := by simp [knownToolName, n8]
      rw [hk] at hkt; exact Bool.noConfusion hkt
    · have hkt : knownToolName (getProp params "name") = true := by simp [knownToolName, n9]
      rw [hk] at hkt; exact Bool.noConfusion hkt
    · have hkt : knownToolName (getProp params "name") = true := by simp [knownToolName, n10]
      rw [hk] at hkt; exact Bool.noConfusion hkt
    · exact heq

/-- Witness for the amended C5: array params (JS object type) with an
unknown name draw `-32601`, and `params: null` draws `-32602`. -/
theorem tools_call_params_dispatch_witness :
    toolsCall (some (Json.arr [Json.str "x"])) (some "k") (some (Json.num 3))
        BackendOutcome.noResponse =
      { responses := [errResp (some (Json.num 3)) (-32601) "Tool not found: undefined"],
        backendCalled := false } ∧
    toolsCall (some Json.null) (some "k") (some (Json.num 4)) BackendOutcome.noResponse =
      { responses := [errResp (some (Json.num 4)) (-32602) "Invalid params for tools/call"],
        backendCalled := false } :=
  ⟨(tools_call_params_dispatch (some (Json.arr [Json.str "x"])) (some "k")
      (some (Json.num 3)) BackendOutcome.noResponse).2 rfl rfl,
   (tools_call_params_dispatch (some Json.null) (some "k")
      (some (Json.num 4)) BackendOutcome.noResponse).1 rfl⟩

/-- C6: a `tools/call` of any registered tool without the
`LINKEDIN_MCP_API_KEY` credential in the environment is answered with a
single `-32001` error envelope and no backend HTTP call, whatever the
arguments were. -/
theorem missing_credential_blocks_network (params : Option Json) (idv : Option Json)
    (out : BackendOutcome) (hknown : knownToolName (getProp params "name") = true) :
    toolsCall params none idv out =
      { responses := [errResp idv (-32001) "Server Configuration Error: API Key not set."],
        backendCalled := false } := by
  rcases toolsCall_cases params none idv out with ⟨hbad, _⟩ | ⟨_, e1⟩ | ⟨_, e2⟩ | ⟨_, e3⟩ |
    ⟨_, e4⟩ | ⟨_, e5⟩ | ⟨_, e6⟩ | ⟨_, e7⟩ | ⟨_, e8⟩ | ⟨_, e9⟩ | ⟨_, e10⟩ | ⟨_, hk, _⟩
  · rw [knownTool_params_object hknown] at hbad
    exact Bool.noConfusion hbad
  · rw [e1]; rfl
  · rw [e2]; rfl
  · rw [e3]; rfl
  · rw [e4]; rfl
  · rw [e5]; rfl
  · rw [e6]; rfl
  · rw [e7]; rfl
  · rw [e8]; rfl
  · rw [e9]; rfl
  · rw [e10]; rfl
  · rw [hk] at hknown
    exact Bool.noConfusion hknown

/-- Witness for C6: a fully valid publish call without the credential
draws `-32001` and no network. -/
theorem missing_credential_blocks_network_witness :
    toolsCall
        (some (Json.obj [("name", Json.str "publish_linkedin_post"),
                         ("arguments", Json.obj [("post_text", Json.str "hello")])]))
        none (some (Json.num 2)) BackendOutcome.noResponse =
      { responses := [errResp (some (Json.num 2)) (-32001)
          "Server Configuration Error: API Key not set."],
        backendCalled := false } :=
  missing_credential_blocks_network _ _ _ rfl

/-- C7: with the credential present, a `schedule_linkedin_post` call
reaches the backend only if `scheduled_date` is a string matching the
strict seconds-mandatory ISO-8601 pattern; any string failing the
pattern is rejected with `-32602` before any network call; the
seconds-less `2099-01-01T00:00Z` fails the pattern, while the long-past
`2000-01-01T00:00:00Z` passes it and (with valid remaining arguments)
reaches the backend — no local check that the timestamp is in the
future exists. -/
theorem scheduled_date_strict_pattern (args : Option Json) (key : String) (idv : Option Json)
    (out : BackendOutcome) (hkey : key ≠ "") :
    ((scheduleLinkedinPost args (some key) idv out).backendCalled = true →
      ∃ s, getProp args "scheduled_date" = some (Json.str s) ∧ scheduledDateTest s = true)
    ∧ (∀ s, getProp args "scheduled_date" = some (Json.str s) → scheduledDateTest s = false →
      (scheduleLinkedinPost args (some key) idv out).backendCalled = false ∧
        ∃ m, (scheduleLinkedinPost args (some key) idv out).responses = [errResp idv (-32602) m])
    ∧ scheduledDateTest "2099-01-01T00:00Z" = false
    ∧ scheduledDateTest "2000-01-01T00:00:00Z" = true
    ∧ (scheduleLinkedinPost
        (some (Json.obj [("post_text", Json.str "hi"),
                         ("scheduled_date", Json.str "2000-01-01T00:00:00Z")]))
        (some key) idv out).backendCalled = true := by
  refine ⟨?_, ?_, rfl, rfl, ?_⟩
  · intro hb
    rcases scheduleLinkedinPost_run args (some key) idv out with ⟨hfalse, _⟩ |
      ⟨_, _, _, hsd, htest, _⟩
    · rw [hfalse] at hb
      exact Bool.noConfusion hb
    · obtain ⟨s, hs, _⟩ := requiredStringMissing_false hsd
      refine ⟨s, hs, ?_⟩
      rw [hs] at htest
      exact htest
  · intro s hs hfailtest
    rcases scheduleLinkedinPost_run args (some key) idv out with ⟨hfalse, herr⟩ |
      ⟨_, _, _, _, htest, _⟩
    · refine ⟨hfalse, ?_⟩
      rcases herr with ⟨hknone, _⟩ | ⟨m, hm⟩
      · rw [apiKeyOk_some hkey] at hknone
        exact Bool.noConfusion hknone
      · exact ⟨m, hm⟩
    · rw [hs] at htest
      have htest' : scheduledDateTest s = true := htest
      rw [hfailtest] at htest'
      exact Bool.noConfusion htest'
  · rw [scheduleLinkedinPost.eq_def]
    dsimp only
    rw [if_neg (not_bang_of_true (apiKeyOk_some hkey)),
      if_neg (fun hh => Bool.noConfusion hh), if_neg (fun hh => Bool.noConfusion hh),
      if_neg (fun hh => Bool.noConfusion hh), if_neg (fun hh => Bool.noConfusion hh)]
    cases out <;> dsimp only <;> (repeat' split) <;> rfl

/-- Witness for C7: the seconds-less timestamp of the claim is rejected
with `-32602` and no backend call. -/
theorem scheduled_date_strict_pattern_witness :
    (scheduleLinkedinPost
        (some (Json.obj [("post_text", Json.str "hi"),
                         ("scheduled_date", Json.str "2099-01-01T00:00Z")]))
        (some "k") (some (Json.num 1)) BackendOutcome.noResponse).backendCalled = false ∧
    ∃ m, (scheduleLinkedinPost
        (some (Json.obj [("post_text", Json.str "hi"),
                         ("scheduled_date", Json.str "2099-01-01T00:00Z")]))
        (some "k") (some (Json.num 1)) BackendOutcome.noResponse).responses =
      [errResp (some (Json.num 1)) (-32602) m] := by
  have h := scheduled_date_strict_pattern
    (some (Json.obj [("post_text", Json.str "hi"),
                     ("scheduled_date", Json.str "2099-01-01T00:00Z")]))
    "k" (some (Json.num 1)) BackendOutcome.noResponse (by decide)
  exact h.2.1 "2099-01-01T00:00Z" rfl rfl

/-- C8 counterexample: `get_linkedin_posts` with `limit: 0` is not
rejected — `args?.limit || 5` treats the falsy `0` as absent, the default
`5` passes validation, and the backend call is attempted. -/
theorem zero_limit_counterexample :
    getProp (some zeroLimitArgs) "limit" = some (Json.num 0) ∧
    (getLinkedinPosts (some zeroLimitArgs) (some "k") (some (Json.num 4))
      BackendOutcome.noResponse).backendCalled = true ∧
    (getLinkedinPosts (some zeroLimitArgs) (some "k") (some (Json.num 4))
      BackendOutcome.noResponse).responses =
      [toolErrorText (some (Json.num 4))
        "Failed to get LinkedIn posts: No response received from LinkedIn posts API. The server may be unavailable or experiencing issues."] :=
  ⟨rfl, rfl, rfl⟩

/-- C8 (amended): with the credential present, a falsy `limit` (absent,
`0`, `null`, …) defaults to 5 and the call proceeds to the backend; a
truthy `limit` that is not a number in [1, 20] is rejected with `-32602`
before any network call; a numeric `limit` in [1, 20] proceeds. -/
theorem limit_validation_after_default (args : Option Json) (key : String) (idv : Option Json)
    (out : BackendOutcome) (hkey : key ≠ "") :
    (truthy (getProp args "limit") = false →
      (getLinkedinPosts args (some key) idv out).backendCalled = true)
    ∧ (∀ v, getProp args "limit" = some v → truthy (some v) = true → limitOutOfRange v = true →
      (getLinkedinPosts args (some key) idv out).backendCalled = false ∧
        (getLinkedinPosts args (some key) idv out).responses =
          [errResp idv (-32602) "Invalid arguments: 'limit' must be a number between 1 and 20."])
    ∧ (∀ n : Int, getProp args "limit" = some (Json.num n) → 1 ≤ n → n ≤ 20 →
      (getLinkedinPosts args (some key) idv out).backendCalled = true) := by
  refine ⟨?_, ?_, ?_⟩
  · intro hfalsy
    rcases getLinkedinPosts_run args (some key) idv out with ⟨_, herr⟩ | ⟨hb, _, _⟩
    · rcases herr with ⟨hknone, _⟩ | ⟨hlim, _⟩
      · rw [apiKeyOk_some hkey] at hknone
        exact Bool.noConfusion hknone
      · rw [jsOr_falsy hfalsy] at hlim
        exact Bool.noConfusion hlim
    · exact hb
  · intro v hv htr hout
    rcases getLinkedinPosts_run args (some key) idv out with ⟨hfalse, herr⟩ | ⟨_, _, hlim⟩
    · rcases herr with ⟨hknone, _⟩ | ⟨_, hresp⟩
      · rw [apiKeyOk_some hkey] at hknone
        exact Bool.noConfusion hknone
      · exact ⟨hfalse, hresp⟩
    · rw [hv, jsOr_truthy htr, hout] at hlim
      exact Bool.noConfusion hlim
  · intro n hn h1 h20
    rcases getLinkedinPosts_run args (some key) idv out with ⟨_, herr⟩ | ⟨hb, _, _⟩
    · rcases herr with ⟨hknone, _⟩ | ⟨hlim, _⟩
      · rw [apiKeyOk_some hkey] at hknone
        exact Bool.noConfusion hknone
      · rw [hn] at hlim
        have htr : truthy (some (Json.num n)) = true := by
          simp [truthy]
          omega
        rw [jsOr_truthy htr] at hlim
        have : limitOutOfRange (Json.num n) = false := by
          simp [limitOutOfRange]
          omega
        rw [this] at hlim
        exact Bool.noConfusion hlim
    · exact hb

/-- Witness for the amended C8: `limit: 21` (truthy, out of range) is
rejected with `-32602` and no backend call. -/
theorem limit_validation_after_default_witness :
    (getLinkedinPosts (some (Json.obj [("limit", Json.num 21)])) (some "k")
      (some (Json.num 1)) BackendOutcome.noResponse).backendCalled = false ∧
    (getLinkedinPosts (some (Json.obj [("limit", Json.num 21)])) (some "k")
      (some (Json.num 1)) BackendOutcome.noResponse).responses =
      [errResp (some (Json.num 1)) (-32602)
        "Invalid arguments: 'limit' must be a number between 1 and 20."] := by
  have h := limit_validation_after_default (some (Json.obj [("limit", Json.num 21)])) "k"
    (some (Json.num 1)) BackendOutcome.noResponse (by decide)
  exact h.2.1 (Json.num 21) rfl rfl rfl

/-- C9: the SIGTERM handler only logs — over any event sequence without a
SIGINT the process stays in the serving state and the stdin lines are
answered exactly as the line handler answers them — while a SIGINT in the
serving state exits promptly with code 0. -/
theorem sigterm_keeps_serving (env : Env) (events : List HostEvent)
    (h : HostEvent.sigint ∉ events) :
    (runEvents env ProcState.serving events).1 = ProcState.serving ∧
    (runEvents env ProcState.serving events).2 = serverTrace env (lineEventsOf events) ∧
    stepEvent env ProcState.serving HostEvent.sigint = (ProcState.exited 0, []) := by
  have main : ∀ evs : List HostEvent, HostEvent.sigint ∉ evs →
      runEvents env ProcState.serving evs =
        (ProcState.serving, serverTrace env (lineEventsOf evs)) := by
    intro evs
    induction evs with
    | nil => intro _; rfl
    | cons e es ih =>
      intro hmem
      have hes : HostEvent.sigint ∉ es := fun hm => hmem (List.mem_cons_of_mem _ hm)
      cases e with
      | sigint => exact absurd (List.mem_cons_self _ _) hmem
      | sigterm => simp [runEvents, stepEvent, lineEventsOf, ih hes]
      | stdinLine p o => simp [runEvents, stepEvent, lineEventsOf, serverTrace, ih hes]
      | stdinClose => simp [runEvents, stepEvent, lineEventsOf, ih hes]
  exact ⟨by rw [main events h], by rw [main events h], rfl⟩

/-- Witness for C9: after a SIGTERM the process is still serving and
still answers the next (unparsable) line with the `-32700` response. -/
theorem sigterm_keeps_serving_witness :
    (runEvents { apiKey := none } ProcState.serving
      [HostEvent.sigterm, HostEvent.stdinLine none BackendOutcome.noResponse]).1 =
        ProcState.serving ∧
    (runEvents { apiKey := none } ProcState.serving
      [HostEvent.sigterm, HostEvent.stdinLine none BackendOutcome.noResponse]).2 =
        [parseErrorResponse] := by
  have h := sigterm_keeps_serving { apiKey := none }
    [HostEvent.sigterm, HostEvent.stdinLine none BackendOutcome.noResponse] (by simp)
  exact ⟨h.1, h.2.1⟩

/-- C10: for an `analyze_linkedin_chat` call with a non-empty query, a
conversation history that need only be an array (its elements are never
shape-checked), and a 2xx backend response, success is decided solely by
a truthy `reply` field: a truthy reply is answered `isError: false` with
the reply verbatim as the text, and any 2xx body without a truthy reply
— `success: true` included — is answered `isError: true`. -/
theorem analyze_chat_success_iff_reply (q : String) (hist : List Json) (key : String)
    (idv : Option Json) (data : Option Json) (hq : jsTrim q ≠ "") (hkey : key ≠ "") :
    (analyzeLinkedinChat
        (some (Json.obj [("query", Json.str q), ("conversation_history", Json.arr hist)]))
        (some key) idv (BackendOutcome.ok data)).backendCalled = true
    ∧ (∀ v, getProp data "reply" = some v → truthy (some v) = true → truthy data = true →
      (analyzeLinkedinChat
          (some (Json.obj [("query", Json.str q), ("conversation_history", Json.arr hist)]))
          (some key) idv (BackendOutcome.ok data)).responses =
        [resultResp idv (toolResult [textItem v] false)])
    ∧ ((truthy data && truthy (getProp data "reply")) = false →
      ∃ t, (analyzeLinkedinChat
          (some (Json.obj [("query", Json.str q), ("conversation_history", Json.arr hist)]))
          (some key) idv (BackendOutcome.ok data)).responses = [toolErrorText idv t]) := by
  have h1 : ¬ ((!(apiKeyOk (some key))) = true) := not_bang_of_true (apiKeyOk_some hkey)
  have h2 : ¬ (requiredStringMissing
      (getProp (some (Json.obj [("query", Json.str q), ("conversation_history", Json.arr hist)]))
        "query") = true) := by
    intro hh
    have hh' : (jsTrim q == "") = true := hh
    exact hq (by simpa using hh')
  rw [analyzeLinkedinChat.eq_def]
  dsimp only
  rw [if_neg h1, if_neg h2, if_neg (fun hh => Bool.noConfusion hh)]
  refine ⟨?_, ?_, ?_⟩
  · split <;> rfl
  · intro v hv htv htd
    have hcond : (truthy data && truthy (getProp data "reply")) = true := by
      rw [hv]
      simp [htd, htv]
    rw [if_pos hcond, hv]
    exact rfl
  · intro hfail
    rw [if_neg (fun hh => Bool.noConfusion (hfail.symm.trans hh))]
    exact ⟨_, rfl⟩

/-- Witness for C10: a 2xx body `{success: true}` without `reply`, with a
non-shape-checked history element `42`, is answered `isError: true`. -/
theorem analyze_chat_success_iff_reply_witness :
    ∃ t, (analyzeLinkedinChat
        (some (Json.obj [("query", Json.str "hello"),
                         ("conversation_history", Json.arr [Json.num 42])]))
        (some "k") (some (Json.num 9))
        (BackendOutcome.ok (some (Json.obj [("success", Json.bool true)])))).responses =
      [toolErrorText (some (Json.num 9)) t] := by
  have h := analyze_chat_success_iff_reply "hello" [Json.num 42] "k" (some (Json.num 9))
    (some (Json.obj [("success", Json.bool true)])) (by decide) (by decide)
  exact h.2.2 rfl

end LinkedinMcpRunner
